import Mathlib

/-!
Shallow embedding of the chat-exporter message-construction core
(src/chat_exporter/construct/message.py) and of the transcript assembler
`gather_messages`.  Pure functions below mirror the Python methods of
`MessageConstruct`; mutable attributes are threaded as explicit state,
network calls (`channel.fetch_message`, `guild.fetch_member`,
`guild.fetch_channel`) are oracles carried in a context record, and
Python exceptions are `Except.error`.
-/

namespace Chat

/-! ## Time model

A Python `datetime` is a wall-clock reading together with an optional
fixed UTC offset (`tzinfo`); `none` models a naive datetime.  Seconds
are used as the unit; `timedelta(minutes=4)` is 240 seconds. -/

structure Datetime where
  seconds : Int
  tzoffset : Option Int
  deriving DecidableEq

/-- Instant denoted by a datetime, in UTC seconds; a naive datetime is read
at the given fallback offset (Python uses the system zone in `astimezone`
and plain wall-clock ordering in comparisons). -/
def Datetime.absAt (fallback : Int) (t : Datetime) : Int :=
  t.seconds - (t.tzoffset.getD fallback)

/-- Instant of a datetime with naive values read at offset 0; used for the
divider-gap comparison, where both datetimes have the same awareness. -/
def Datetime.instant (t : Datetime) : Int :=
  t.seconds - (t.tzoffset.getD 0)

/-- Error text of pytz for `localize` applied to an aware datetime. -/
def pytzNotNaiveMsg : String := "ValueError: Not naive datetime (tzinfo is already set)"

/-- Model of `pytz.timezone(z).localize(t)`: attach the zone's offset to a
naive datetime; pytz raises `ValueError` when `t` is already aware. -/
def pytzLocalize (off : Int) (t : Datetime) : Except String Datetime :=
  match t.tzoffset with
  | none => Except.ok { t with tzoffset := some off }
  | some _ => Except.error pytzNotNaiveMsg

/-- Model of `t.astimezone(tz)`: convert to the target offset; a naive `t`
is interpreted in the system zone `sysOff`, as Python does. -/
def astimezone (targetOff sysOff : Int) (t : Datetime) : Datetime :=
  { seconds := t.absAt sysOff + targetOff, tzoffset := some targetOff }

/-- MessageConstruct.to_local_time_str (message.py lines 440-449).  Note the
guard reads `self.message.created_at.tzinfo` (here `selfCreatedTz`), not the
tzinfo of the datetime `t` actually being converted. -/
def to_local_time_str (selfCreatedTz : Option Int) (displayOff sysOff : Int)
    (t : Datetime) : Except String Datetime :=
  if selfCreatedTz.isNone then
    match pytzLocalize 0 t with
    | Except.error e => Except.error e
    | Except.ok t' => Except.ok (astimezone displayOff sysOff t')
  else
    Except.ok (astimezone displayOff sysOff t)

/-- Localization rule as the specification words it: a timestamp that
carries no timezone information is localized to UTC before conversion to
the display timezone; an aware timestamp is converted directly. -/
def to_local_time_str_spec (displayOff sysOff : Int) (t : Datetime) : Datetime :=
  match t.tzoffset with
  | none => astimezone displayOff sysOff { t with tzoffset := some 0 }
  | some _ => astimezone displayOff sysOff t

/-! ## Data model

Records mirror the fields of the `interactions` (ipy) objects that
message.py reads.  Only the fields the core touches are carried. -/

/-- Message type tags used by the dispatch in `construct_message`;
`REPLY` stands in for the further non-default types of the library. -/
inductive MessageType where
  | DEFAULT
  | REPLY
  | CHANNEL_PINNED_MESSAGE
  | THREAD_CREATED
  | RECIPIENT_REMOVE
  | RECIPIENT_ADD
  deriving DecidableEq

/-- Guild role: id, hierarchy position, colour value (0 is the default,
falsy colour) and optional role icon URL. -/
structure Role where
  id : Nat
  position : Nat
  colour : Nat
  icon : Option String
  deriving DecidableEq

/-- Guild member as returned by `guild.fetch_member`. -/
structure Member where
  id : Nat
  tag : String
  display_name : String
  roles : List Role
  deriving DecidableEq

/-- Message author (ipy.User or ipy.Member); `is_member` models the
`isinstance(author, ipy.Member)` test of `build_meta_data`. -/
structure Author where
  id : Nat
  tag : String
  username : String
  display_name : String
  bot : Bool
  verified_bot : Bool
  avatar_url : String
  created_at : Datetime
  joined_at : Option Datetime
  is_member : Bool
  deriving DecidableEq

/-- Reply reference carried by a message (message id and source channel). -/
structure MessageReference where
  message_id : Nat
  channel_id : Nat
  deriving DecidableEq

/-- Slash-command interaction record attached to a message. -/
structure Interaction where
  id : Nat
  name : String
  user : Author
  deriving DecidableEq

/-- Input message record.  Asset lists (embeds, attachments, components,
reactions) carry the markup each asset renderer would produce, since the
asset renderers are out of the core's scope; `channel_is_thread` models
the test `"thread" in str(message.channel.type)` and `channel_id` the
channel used by `message.channel.fetch_message`. -/
structure Message where
  id : Nat
  author : Author
  content : String
  created_at : Datetime
  edited_timestamp : Option Datetime
  type : MessageType
  message_reference : Option MessageReference
  interaction : Option Interaction
  webhook_id : Option Nat
  mention_ids : List Nat
  embeds : List String
  attachments : List String
  components : List String
  reactions : List String
  channel_id : Nat
  channel_is_thread : Bool
  deriving DecidableEq

/-- Value of the dynamically typed `message.message_reference` attribute:
`None`, the original reference object, or (after `build_reference`) a
string of rendered markup. -/
inductive RefSlot where
  | noneV
  | obj (r : MessageReference)
  | str (s : String)
  deriving DecidableEq

/-- Value of the dynamically typed `message.interaction` attribute. -/
inductive IntSlot where
  | noneV
  | obj (i : Interaction)
  | str (s : String)
  deriving DecidableEq

/-- Python inequality `slot != ""` as the divider check evaluates it:
`None` and objects differ from the empty string. -/
def RefSlot.neEmpty : RefSlot → Bool
  | .noneV => true
  | .obj _ => true
  | .str s => decide (s ≠ "")

/-- Python inequality `slot != ""` for the interaction attribute. -/
def IntSlot.neEmpty : IntSlot → Bool
  | .noneV => true
  | .obj _ => true
  | .str s => decide (s ≠ "")

/-- String view of the reference slot used by the `or`-expression of the
start template: `None` is falsy (empty), objects are truthy. -/
def RefSlot.asStr : RefSlot → String
  | .noneV => ""
  | .obj r => "MessageReference " ++ toString r.message_id
  | .str s => s

/-- String view of the interaction slot for the same `or`-expression. -/
def IntSlot.asStr : IntSlot → String
  | .noneV => ""
  | .obj i => "Interaction " ++ toString i.id
  | .str s => s

/-- Python `a or b` on the two slot strings. -/
def pyOrStr (a b : String) : String := if a ≠ "" then a else b

/-- The message object as the builder mutates it: `content`,
`message_reference` and `interaction` are overwritten in place by
`build_content`, `build_reference` and `build_interaction`. -/
structure MutMessage where
  id : Nat
  author : Author
  content : String
  created_at : Datetime
  edited_timestamp : Option Datetime
  type : MessageType
  message_reference : RefSlot
  interaction : IntSlot
  webhook_id : Option Nat
  mention_ids : List Nat
  embeds : List String
  attachments : List String
  components : List String
  reactions : List String
  channel_id : Nat
  channel_is_thread : Bool
  deriving DecidableEq

/-- View of the input message as the mutable object the builder works on. -/
def Message.toMut (m : Message) : MutMessage :=
  { id := m.id, author := m.author, content := m.content,
    created_at := m.created_at, edited_timestamp := m.edited_timestamp,
    type := m.type,
    message_reference := match m.message_reference with
      | some r => RefSlot.obj r
      | none => RefSlot.noneV,
    interaction := match m.interaction with
      | some i => IntSlot.obj i
      | none => IntSlot.noneV,
    webhook_id := m.webhook_id, mention_ids := m.mention_ids,
    embeds := m.embeds, attachments := m.attachments,
    components := m.components, reactions := m.reactions,
    channel_id := m.channel_id, channel_is_thread := m.channel_is_thread }

/-! ## String helpers and template constants

The template file `chat_exporter/ext/html_generator.py` is not part of
the given sources; its `fill_out` calls on named templates are modelled
from the spec's Template Fill Engine section as structured renderings
whose markup skeletons are fixed strings. -/

/-- Expansion of one character under Python `html.escape` (quote=True). -/
def escChar (c : Char) : String :=
  if c = '&' then "&amp;"
  else if c = '<' then "&lt;"
  else if c = '>' then "&gt;"
  else if c = '"' then "&quot;"
  else if c = '\'' then "&#x27;"
  else String.singleton c

/-- Python `html.escape(s)`. -/
def htmlEscape (s : String) : String :=
  String.join (s.toList.map escChar)

/-- Removal of the literal `<br>` occurrences, left to right. -/
def removeBr : List Char → List Char
  | '<' :: 'b' :: 'r' :: '>' :: rest => removeBr rest
  | c :: rest => c :: removeBr rest
  | [] => []

/-- Model of `s.replace("\n", "").replace("<br>", "")` in `build_reference`. -/
def stripNewlineBr (s : String) : String :=
  String.mk (removeBr (s.toList.filter (fun c => c ≠ '\n')))

/-- Last whitespace-separated token of a string, as `s.split()[-1]` reads
the time-of-day out of the formatted timestamp. -/
def lastWordAux : List Char → List Char → List Char
  | [], acc => acc.reverse
  | ' ' :: rest, _ => lastWordAux rest []
  | c :: rest, acc => lastWordAux rest (c :: acc)

/-- Python `s.split()[-1]` for the strings produced by `fmtTime`. -/
def lastWord (s : String) : String := String.mk (lastWordAux s.toList [])

/-- Modelled from the spec: `strftime` with the configured time format
("%A, %e %B %Y %H:%M" or the 12-hour variant) abstracted as an injective
rendering of the local datetime that ends in a time-of-day token. -/
def fmtTime (militaryTime : Bool) (d : Datetime) : String :=
  (if militaryTime then "fmt24 " else "fmt12 ")
    ++ toString d.seconds ++ "z" ++ toString (d.tzoffset.getD 0)

/-- Modelled from the spec: the "%d-%m-%Y %H:%M" rendering of the default
timestamp in the start template, abstracted likewise. -/
def fmtDefault (d : Datetime) : String :=
  "dmy " ++ toString d.seconds ++ "z" ++ toString (d.tzoffset.getD 0)

/-- Markup of `_set_edit_at` (message.py lines 42-43). -/
def set_edit_at (ts : String) : String :=
  "<span class=\"chatlog__reference-edited-timestamp\" data-timestamp=\""
    ++ ts ++ "\">(edited)</span>"

/-- Modelled from the spec: the plain bot badge of html_generator. -/
def bot_tag : String := "<span class=\"chatlog__bot-tag\">BOT</span>"

/-- Modelled from the spec: the verified-bot badge of html_generator. -/
def bot_tag_verified : String := "<span class=\"chatlog__bot-tag\">VERIFIED BOT</span>"

/-- Modelled from the spec: the fixed banner substituted for a reply whose
original message was deleted (html_generator's message_reference_unknown). -/
def message_reference_unknown : String :=
  "<div class=\"chatlog__reference\">Original message was deleted or could not be loaded.</div>"

/-- Modelled from the spec: the attachment icon URL of DiscordUtils. -/
def reference_attachment_icon : String := "attachment-icon"

/-- Modelled from the spec: the slash-command icon URL of DiscordUtils. -/
def interaction_command_icon : String := "command-icon"

/-- Modelled from the spec: `fill_out` on the message_content template
with the escaped body and the optional edited marker. -/
def render_message_content (content edit : String) : String :=
  "<div class=\"chatlog__content\">" ++ content ++ edit ++ "</div>"

/-- Modelled from the spec: `fill_out` on the message_reference template,
carrying the substitutions of build_reference in order. -/
def render_message_reference (avatarUrl botTag nameTag name colour content edit icon : String)
    (userId messageId : Nat) : String :=
  "<div class=\"chatlog__reference\">" ++
    (avatarUrl ++ "|" ++ botTag ++ "|" ++ nameTag ++ "|" ++ name ++ "|" ++ colour ++ "|"
      ++ content ++ "|" ++ edit ++ "|" ++ icon ++ "|" ++ toString userId ++ "|"
      ++ toString messageId ++ "</div>")

/-- Modelled from the spec: `fill_out` on the message_interaction template,
carrying the substitutions of build_interaction in order. -/
def render_message_interaction (avatarUrl botTag nameTag name colour command : String)
    (userId interactionId : Nat) : String :=
  "<div class=\"chatlog__interaction\">" ++
    (avatarUrl ++ "|" ++ botTag ++ "|" ++ nameTag ++ "|" ++ name ++ "|" ++ colour
      ++ "|used |" ++ command ++ "|" ++ toString userId ++ "|"
      ++ toString interactionId ++ "</div>")

/-- `_gather_user_bot` (message.py lines 33-39). -/
def gather_user_bot (a : Author) : String :=
  if a.bot then (if a.verified_bot then bot_tag_verified else bot_tag) else ""

/-! ## Role ordering, colour and icon resolution

The comparison operator of the library's `Role` class is not part of the
given sources.  Modelled from the spec: hierarchy ordering is by role
rank (position), ties broken by role id, mirroring the platform sort
order; Python `sorted` is a stable ascending sort for that order. -/

/-- Non-strict role order: by position, ties by id. -/
def roleLe (a b : Role) : Bool :=
  a.position < b.position || (a.position = b.position && a.id ≤ b.id)

/-- Strict role order: `a` strictly below `b` in the hierarchy. -/
def roleLt (a b : Role) : Bool :=
  a.position < b.position || (a.position = b.position && a.id < b.id)

/-- Insertion step of the stable ascending sort modelling Python `sorted`. -/
def insertRole (x : Role) : List Role → List Role
  | [] => [x]
  | y :: ys => if roleLe x y then x :: y :: ys else y :: insertRole x ys

/-- Stable ascending sort of roles modelling Python `sorted`. -/
def sortRoles : List Role → List Role
  | [] => []
  | x :: xs => insertRole x (sortRoles xs)

/-- Hexadecimal digit character (lowercase), for the colour rendering. -/
def hexChar (n : Nat) : Char :=
  if n = 0 then '0' else if n = 1 then '1' else if n = 2 then '2'
  else if n = 3 then '3' else if n = 4 then '4' else if n = 5 then '5'
  else if n = 6 then '6' else if n = 7 then '7' else if n = 8 then '8'
  else if n = 9 then '9' else if n = 10 then 'a' else if n = 11 then 'b'
  else if n = 12 then 'c' else if n = 13 then 'd' else if n = 14 then 'e'
  else 'f'

/-- Modelled from the spec: `str(Color)` of the library, the six-digit
lowercase "#rrggbb" form of a 24-bit colour value. -/
def colorStr (v : Nat) : String :=
  String.mk ['#', hexChar (v / 1048576 % 16), hexChar (v / 65536 % 16),
    hexChar (v / 4096 % 16), hexChar (v / 256 % 16), hexChar (v / 16 % 16),
    hexChar (v % 16)]

/-! ## External collaborators -/

/-- Outcome of a remote message fetch: success, an `ipy.errors.NotFound`,
or any other `ipy.errors.HTTPException`. -/
inductive FetchRes (α : Type) where
  | found (a : α)
  | notFound
  | otherError
  deriving DecidableEq

/-- Construction context: the configuration of `MessageConstruct` plus the
oracles for the network calls.  `memberOf` is `guild.fetch_member` (absent
member gives `none`); `fetchMessage c i` is the fetch of message `i` from
channel `c` (in `gather_messages` the fetch of the channel and of the
message from it are merged into this one oracle). -/
structure Ctx where
  guild_id : Nat
  memberOf : Nat → Option Member
  fetchMessage : Nat → Nat → FetchRes Message
  displayOff : Int
  sysOff : Int
  militaryTime : Bool

/-- `MessageConstruct._gather_user_colour` (message.py lines 396-412):
sort the member's roles other than the guild's everyone role, take the
highest one with a truthy colour, render white when there is none or when
the membership lookup fails. -/
def gather_user_colour (ctx : Ctx) (authorId : Nat) : String :=
  match ctx.memberOf authorId with
  | none => "color: #FFFFFF;"
  | some mem =>
    let roles := sortRoles (mem.roles.filter (fun r => decide (r.id ≠ ctx.guild_id)))
    match roles.reverse.find? (fun r => decide (r.colour ≠ 0)) with
    | some r =>
      if colorStr r.colour ≠ "#000000" then "color: " ++ colorStr r.colour ++ ";"
      else "color: #FFFFFF;"
    | none => "color: #FFFFFF;"

/-- `MessageConstruct._gather_user_icon` (message.py lines 414-431). -/
def gather_user_icon (ctx : Ctx) (authorId : Nat) : String :=
  match ctx.memberOf authorId with
  | none => ""
  | some mem =>
    let roles := sortRoles (mem.roles.filter (fun r => decide (r.id ≠ ctx.guild_id)))
    match roles.reverse.find? (fun r => r.icon.isSome) with
    | some r =>
      "<img class=\"chatlog__role-icon\" src=\"" ++ (r.icon.getD "")
        ++ "\" alt=\"Role Icon\">"
    | none => ""

/-! ## Per-author aggregate -/

/-- Entry of the per-author aggregate map (message.py lines 136-138). -/
structure MetaEntry where
  tag : String
  created_at : Datetime
  bot_markup : String
  avatar : String
  count : Nat
  joined_at : Option Datetime
  display_name_markup : String
  deriving DecidableEq

/-- The aggregate map, an insertion-ordered dictionary keyed by user id. -/
abbrev Meta := List (Nat × MetaEntry)

/-- Dictionary lookup on the aggregate map. -/
def metaFind : Meta → Nat → Option MetaEntry
  | [], _ => none
  | (k, e) :: rest, x => if k = x then some e else metaFind rest x

/-- Dictionary update of an existing key on the aggregate map. -/
def metaSet : Meta → Nat → MetaEntry → Meta
  | [], _, _ => []
  | (k, e) :: rest, x, e' => if k = x then (x, e') :: rest else (k, e) :: metaSet rest x e'

/-- Message count recorded for a user id (0 when the id has no entry). -/
def metaCount (meta : Meta) (x : Nat) : Nat :=
  match metaFind meta x with
  | some e => e.count
  | none => 0

/-- `MessageConstruct.build_meta_data` (message.py lines 120-138). -/
def build_meta_data (a : Author) (meta : Meta) : Meta :=
  match metaFind meta a.id with
  | some e => metaSet meta a.id { e with count := e.count + 1 }
  | none =>
    meta ++ [(a.id,
      { tag := a.tag, created_at := a.created_at, bot_markup := gather_user_bot a,
        avatar := a.avatar_url, count := 1,
        joined_at := if a.is_member then a.joined_at else none,
        display_name_markup :=
          if a.display_name ≠ a.username then
            "<div class=\"meta__display-name\">" ++ a.display_name ++ "</div>"
          else "" })]

/-! ## Timestamp strings of the builder -/

/-- `MessageConstruct.set_time` (message.py lines 433-438): the formatted
creation timestamp and the formatted edit timestamp (empty when the
message carries none), both via `to_local_time_str` with its guard on the
constructed message's own `created_at`. -/
def set_time (ctx : Ctx) (selfCreatedTz : Option Int) (created : Datetime)
    (edited : Option Datetime) : Except String (String × String) :=
  match to_local_time_str selfCreatedTz ctx.displayOff ctx.sysOff created with
  | Except.error e => Except.error e
  | Except.ok c =>
    match edited with
    | none => Except.ok (fmtTime ctx.militaryTime c, "")
    | some ed =>
      match to_local_time_str selfCreatedTz ctx.displayOff ctx.sysOff ed with
      | Except.error e => Except.error e
      | Except.ok e' => Except.ok (fmtTime ctx.militaryTime c, fmtTime ctx.militaryTime e')

/-- Timestamp combinations on which `set_time` cannot raise: pytz
`localize` fails only when the message's own creation timestamp is naive
while the edit timestamp is aware. -/
def tz_ok (m : Message) : Bool :=
  !(m.created_at.tzoffset.isNone &&
    (match m.edited_timestamp with
     | some e => e.tzoffset.isSome
     | none => false))

/-- Lookup in the in-memory map `message_dict` built by `gather_messages`
(`{m.id: m for m in messages}`: the last message with a given id wins). -/
def dictGet (dict : List Message) (k : Nat) : Option Message :=
  dict.reverse.find? (fun m => decide (m.id = k))

/-! ## Emitted markup fragments

Each `fill_out` call appending to `message_html` is modelled as one
structured fragment carrying its substituted values; the string
concatenation of the source becomes list concatenation. -/

/-- Substitutions of the start_message template (message.py lines 317-336). -/
structure StartData where
  followup : String
  reference : String
  avatar : String
  name_tag : String
  user_id : Nat
  colour : String
  icon : String
  name : String
  bot_tag_markup : String
  timestamp : String
  default_timestamp : String
  message_id : Nat
  content : String
  embeds : String
  attachments : String
  components : String
  reactions : String
  deriving DecidableEq

/-- One templated fragment of the transcript markup. -/
inductive Fragment where
  | end_message
  | start_message (d : StartData)
  | message_body (message_id : Nat)
      (content embeds attachments components reactions timestamp timeOnly : String)
  | message_pin (colour name name_tag : String) (message_id ref_message_id : Nat)
  | message_thread (colour thread_name name name_tag : String) (message_id : Nat)
  | message_thread_remove (colour name name_tag rcolour rname rtag : String)
      (message_id : Nat)
  | message_thread_add (colour name name_tag rcolour rname rtag : String)
      (message_id : Nat)
  | raw (s : String)
  deriving DecidableEq

/-- Test for the block-closing fragment (the end_message template). -/
def isEnd : Fragment → Bool
  | .end_message => true
  | _ => false

/-- Number of block-closing fragments in a piece of markup. -/
def countEnd (l : List Fragment) : Nat := (l.filter isEnd).length

/-- Test for a raw string fragment (only the assembler's trailing close). -/
def isRaw : Fragment → Bool
  | .raw _ => true
  | _ => false

/-- Number of raw fragments in a piece of markup. -/
def countRaw (l : List Fragment) : Nat := (l.filter isRaw).length

/-- Reference substitution of the first start_message fragment, if any. -/
def firstStartRef : List Fragment → Option String
  | [] => none
  | .start_message d :: _ => some d.reference
  | _ :: rest => firstStartRef rest

/-- Recipient name tag of the first member-removed/added fragment, if any. -/
def recipientTag : List Fragment → Option String
  | [] => none
  | .message_thread_remove _ _ _ _ _ rtag _ :: _ => some rtag
  | .message_thread_add _ _ _ _ _ rtag _ :: _ => some rtag
  | _ :: rest => recipientTag rest

/-! ## The message builder -/

/-- `MessageConstruct.build_content` (message.py lines 140-152): escape
and render the body, prepare the edited marker; returns the updated
message object and the updated `message_edited_at` attribute. -/
def build_content (st : MutMessage) (editedStr : String) : MutMessage × String :=
  if st.content = "" then ({ st with content := "" }, editedStr)
  else
    let ed := if editedStr ≠ "" then set_edit_at editedStr else editedStr
    ({ st with content := render_message_content (htmlEscape st.content) ed }, ed)

/-- `MessageConstruct.build_reference` (message.py lines 154-209).  The
result carries the updated message object and the list of message ids
fetched remotely.  A missing reference clears the attribute to `""`; an
unresolved id is fetched once; `NotFound` substitutes the fixed deleted
banner, any other `HTTPException` clears the attribute; a resolved
message is rendered into the reply banner. -/
def build_reference (ctx : Ctx) (dict : List Message) (selfCreatedTz : Option Int)
    (st : MutMessage) : Except String (MutMessage × List Nat) :=
  match st.message_reference with
  | RefSlot.noneV => Except.ok ({ st with message_reference := RefSlot.str "" }, [])
  | RefSlot.str _ => Except.error "unreachable: reference already rendered"
  | RefSlot.obj r =>
    let rid := r.message_id
    let resolve : Message → List Nat → Except String (MutMessage × List Nat) :=
      fun refMsg fetches =>
        let isBot := gather_user_bot refMsg.author
        let colour := gather_user_colour ctx refMsg.author.id
        let content :=
          if refMsg.content = "" && refMsg.interaction.isNone then "Click to see attachment"
          else if refMsg.content = "" && refMsg.interaction.isSome then "Click to see command"
          else refMsg.content
        let icon :=
          if refMsg.interaction.isNone && (!refMsg.embeds.isEmpty || !refMsg.attachments.isEmpty) then
            reference_attachment_icon
          else if refMsg.interaction.isSome then interaction_command_icon
          else ""
        match set_time ctx selfCreatedTz refMsg.created_at refMsg.edited_timestamp with
        | Except.error e => Except.error e
        | Except.ok (_, editedAt) =>
          let edit := if editedAt ≠ "" then set_edit_at editedAt else editedAt
          let newRef := render_message_reference refMsg.author.avatar_url isBot
            refMsg.author.tag (htmlEscape refMsg.author.display_name) colour
            (stripNewlineBr content) edit icon refMsg.author.id rid
          Except.ok ({ st with message_reference := RefSlot.str newRef }, fetches)
    match dictGet dict rid with
    | some refMsg => resolve refMsg []
    | none =>
      match ctx.fetchMessage st.channel_id rid with
      | FetchRes.found refMsg => resolve refMsg [rid]
      | FetchRes.notFound =>
        Except.ok ({ st with message_reference := RefSlot.str message_reference_unknown }, [rid])
      | FetchRes.otherError =>
        Except.ok ({ st with message_reference := RefSlot.str "" }, [rid])

/-- `MessageConstruct.build_interaction` (message.py lines 211-232). -/
def build_interaction (ctx : Ctx) (st : MutMessage) : MutMessage :=
  match st.interaction with
  | IntSlot.noneV => { st with interaction := IntSlot.str "" }
  | IntSlot.str s => { st with interaction := IntSlot.str s }
  | IntSlot.obj i =>
    let u := i.user
    let banner := render_message_interaction u.avatar_url (gather_user_bot u) u.tag
      (htmlEscape u.display_name) (gather_user_colour ctx u.id) ("/" ++ i.name) u.id i.id
    { st with interaction := IntSlot.str banner }

/-- Accumulated asset markup of `build_assets` (message.py lines 252-266). -/
structure Assets where
  embeds : String
  attachments : String
  components : String
  reactions : String
  deriving DecidableEq

/-- `MessageConstruct.build_assets`: concatenate the fragments each asset
renderer yields and wrap a non-empty reaction strip in its container. -/
def build_assets (st : MutMessage) : Assets :=
  let r := String.join st.reactions
  { embeds := String.join st.embeds,
    attachments := String.join st.attachments,
    components := String.join st.components,
    reactions := if r ≠ "" then "<div class=\"chatlog__reactions\">" ++ r ++ "</div>" else r }

/-- `MessageConstruct._generate_message_divider_check` (message.py lines
287-293), evaluated on the builder's mutated message object. -/
def divider_check (prevM : Option MutMessage) (st : MutMessage) : Bool :=
  match prevM with
  | none => true
  | some p =>
    st.message_reference.neEmpty
      || decide (p.type ≠ MessageType.DEFAULT)
      || st.interaction.neEmpty
      || decide (p.author.id ≠ st.author.id)
      || st.webhook_id.isSome
      || decide (p.created_at.instant + 240 < st.created_at.instant)

/-- Block-closing emission shared by the audit and normal divider paths:
close the previous block when one exists (message.py lines 297-298). -/
def closePrev (prevM : Option MutMessage) : List Fragment :=
  match prevM with
  | some _ => [Fragment.end_message]
  | none => []

/-- Outcome of the divider: the fragments it emitted, the `started`
return value of the function, and whether the boundary fired. -/
structure DividerOut where
  frags : List Fragment
  started : Bool
  boundary : Bool
  deriving DecidableEq

/-- `MessageConstruct.generate_message_divider` without `channel_audit`
(message.py lines 295-338): when the check fires, close the previous
block and emit the full start_message header.  The audit variant
(`channel_audit=True`) short-circuits the check and is modelled by
`closePrev` directly at the call sites. -/
def generate_message_divider (ctx : Ctx) (prevM : Option MutMessage) (st : MutMessage)
    (assets : Assets) (createdStr : String) : DividerOut :=
  if divider_check prevM st then
    let followup :=
      if st.message_reference.neEmpty || st.interaction.asStr ≠ "" then
        "<div class=\"chatlog__followup-symbol\"></div>"
      else ""
    let t :=
      match st.created_at.tzoffset with
      | none => { st.created_at with tzoffset := some 0 }
      | some _ => st.created_at
    let defaultTs := fmtDefault (astimezone ctx.displayOff ctx.sysOff t)
    { frags := closePrev prevM ++
        [Fragment.start_message
          { followup := followup,
            reference := pyOrStr st.message_reference.asStr st.interaction.asStr,
            avatar := st.author.avatar_url, name_tag := st.author.tag,
            user_id := st.author.id, colour := gather_user_colour ctx st.author.id,
            icon := gather_user_icon ctx st.author.id,
            name := htmlEscape st.author.display_name,
            bot_tag_markup := gather_user_bot st.author,
            timestamp := createdStr, default_timestamp := defaultTs,
            message_id := st.id, content := st.content,
            embeds := assets.embeds, attachments := assets.attachments,
            components := assets.components, reactions := assets.reactions }],
      started := true, boundary := true }
  else { frags := [], started := false, boundary := false }

/-- Result of constructing one message: the mutated message object, the
emitted fragments, the updated aggregate, the divider outcomes and the
ids fetched remotely while resolving the reply reference. -/
structure BuildOut where
  msg : MutMessage
  frags : List Fragment
  meta : Meta
  started : Bool
  boundary : Bool
  fetches : List Nat
  deriving DecidableEq

/-- `MessageConstruct.build_message` followed by `build_message_template`
(message.py lines 95-102 and 268-285): content, reference, interaction and
assets, then the divider; when a new block started the start template
already holds the body, otherwise the body template is appended; finally
the aggregate update. -/
def construct_normal (ctx : Ctx) (m : Message) (prevM : Option MutMessage) (meta : Meta)
    (dict : List Message) (createdStr editedStr : String) : Except String BuildOut :=
  let st1 := (build_content m.toMut editedStr).1
  match build_reference ctx dict m.created_at.tzoffset st1 with
  | Except.error e => Except.error e
  | Except.ok (st2, fetches) =>
    let st3 := build_interaction ctx st2
    let assets := build_assets st3
    let gen := generate_message_divider ctx prevM st3 assets createdStr
    let frags :=
      if gen.started then gen.frags
      else gen.frags ++
        [Fragment.message_body st3.id st3.content assets.embeds assets.attachments
          assets.components assets.reactions createdStr (lastWord createdStr)]
    Except.ok
      { msg := st3, frags := frags, meta := build_meta_data m.author meta,
        started := gen.started, boundary := gen.boundary, fetches := fetches }

/-- `MessageConstruct.construct_message` (message.py lines 80-93): compute
the timestamp strings of `__init__`, then dispatch on the message type.
The audit paths (pin, thread-created, recipient removed/added) force a
block boundary, bypass the divider check and leave the aggregate and the
message object untouched; missing data raises as in Python (a pin without
a reference, an empty mention list, an unfetchable member). -/
def construct_message (ctx : Ctx) (m : Message) (prevM : Option MutMessage)
    (meta : Meta) (dict : List Message) : Except String BuildOut :=
  match set_time ctx m.created_at.tzoffset m.created_at m.edited_timestamp with
  | Except.error e => Except.error e
  | Except.ok (createdStr, editedStr) =>
    match m.type with
    | MessageType.CHANNEL_PINNED_MESSAGE =>
      match m.message_reference with
      | some r =>
        Except.ok
          { msg := m.toMut,
            frags := closePrev prevM ++
              [Fragment.message_pin (gather_user_colour ctx m.author.id)
                (htmlEscape m.author.display_name) m.author.tag m.id r.message_id],
            meta := meta, started := false, boundary := true, fetches := [] }
      | none => Except.error "AttributeError: message_reference is None"
    | MessageType.THREAD_CREATED =>
      Except.ok
        { msg := m.toMut,
          frags := closePrev prevM ++
            [Fragment.message_thread (gather_user_colour ctx m.author.id) m.content
              (htmlEscape m.author.display_name) m.author.tag m.id],
          meta := meta, started := false, boundary := true, fetches := [] }
    | MessageType.RECIPIENT_REMOVE =>
      match m.mention_ids with
      | [] => Except.error "IndexError: mention list is empty"
      | mid :: _ =>
        match ctx.memberOf mid with
        | none => Except.error "AttributeError: removed member could not be fetched"
        | some mem =>
          Except.ok
            { msg := m.toMut,
              frags := closePrev prevM ++
                [Fragment.message_thread_remove (gather_user_colour ctx m.author.id)
                  (htmlEscape m.author.display_name) m.author.tag
                  (gather_user_colour ctx mem.id) (htmlEscape mem.display_name) mem.tag m.id],
              meta := meta, started := false, boundary := true, fetches := [] }
    | MessageType.RECIPIENT_ADD =>
      match m.mention_ids with
      | [] => Except.error "IndexError: mention list is empty"
      | mid :: _ =>
        match ctx.memberOf mid with
        | none => Except.error "AttributeError: added member could not be fetched"
        | some mem =>
          Except.ok
            { msg := m.toMut,
              frags := closePrev prevM ++
                [Fragment.message_thread_add (gather_user_colour ctx m.author.id)
                  (htmlEscape m.author.display_name) m.author.tag
                  (gather_user_colour ctx mem.id) (htmlEscape mem.display_name) mem.tag m.id],
              meta := meta, started := false, boundary := true, fetches := [] }
    | _ => construct_normal ctx m prevM meta dict createdStr editedStr

/-! ## The transcript assembler -/

/-- The processing loop of `gather_messages` (message.py lines 471-482):
construct each message in order, concatenating fragments, threading the
aggregate and using each constructed (mutated) message as the next
previous-message context. -/
def gather_loop (ctx : Ctx) (dict : List Message) :
    List Message → Option MutMessage → List Fragment → Meta →
    Except String (List Fragment × Meta)
  | [], _, html, meta => Except.ok (html, meta)
  | m :: rest, prevM, html, meta =>
    match construct_message ctx m prevM meta dict with
    | Except.error e => Except.error e
    | Except.ok out => gather_loop ctx dict rest (some out.msg) (html ++ out.frags) out.meta

/-- The loop followed by the single trailing block close of
`gather_messages` (message.py line 484). -/
def run_transcript (ctx : Ctx) (dict : List Message) (msgs : List Message) :
    Except String (List Fragment × Meta) :=
  match gather_loop ctx dict msgs none [] [] with
  | Except.error e => Except.error e
  | Except.ok (html, meta) => Except.ok (html ++ [Fragment.raw "</div>"], meta)

/-- `gather_messages` (message.py lines 452-485): build the id map, apply
the thread-anchor special case to the first message (substituting the
fetched parent with its reference cleared), then run the loop and close
the document.  An empty input raises `IndexError` at `messages[0]`. -/
def gather_messages (ctx : Ctx) (messages : List Message) :
    Except String (List Fragment × Meta) :=
  match messages with
  | [] => Except.error "IndexError: list index out of range"
  | m0 :: rest =>
    let dict := m0 :: rest
    match m0.message_reference with
    | some r =>
      if m0.channel_is_thread then
        match ctx.fetchMessage r.channel_id r.message_id with
        | FetchRes.found parent =>
          run_transcript ctx dict ({ parent with message_reference := none } :: rest)
        | FetchRes.notFound => Except.error "NotFound: thread parent fetch failed"
        | FetchRes.otherError => Except.error "HTTPException: thread parent fetch failed"
      else run_transcript ctx dict (m0 :: rest)
    | none => run_transcript ctx dict (m0 :: rest)

/-- Guard for the thread-anchor special case of `gather_messages`. -/
def thread_substitution : List Message → Bool
  | [] => false
  | m0 :: _ => m0.channel_is_thread && m0.message_reference.isSome

/-! ## Claim-facing predicates and sample values -/

/-- Message types routed through the audit paths of `construct_message`
(pin notice, thread created, member removed/added). -/
def is_audit_type : MessageType → Bool
  | MessageType.CHANNEL_PINNED_MESSAGE => true
  | MessageType.THREAD_CREATED => true
  | MessageType.RECIPIENT_REMOVE => true
  | MessageType.RECIPIENT_ADD => true
  | _ => false

/-- Whether an exceptional result was produced. -/
def isErr {α : Type} : Except String α → Bool
  | Except.error _ => true
  | Except.ok _ => false

/-- Block-start condition exactly as the claim words it: first message, or
a reply-reference is carried, or an interaction is carried, or the
previous message's type is not the default one, or the author changed, or
a webhook origin, or a gap of strictly more than 4 minutes. -/
def c1_rhs_claim (m : Message) : Option MutMessage → Bool
  | none => true
  | some p =>
    m.message_reference.isSome || m.interaction.isSome
      || decide (p.type ≠ MessageType.DEFAULT)
      || decide (p.author.id ≠ m.author.id)
      || m.webhook_id.isSome
      || decide (p.created_at.instant + 240 < m.created_at.instant)

/-- Whether the carried reply-reference survives resolution: the
referenced id is loaded locally, or the remote fetch does not fail with
an error class other than not-found. -/
def reference_survives (ctx : Ctx) (dict : List Message) (m : Message) : Bool :=
  match m.message_reference with
  | none => false
  | some r =>
    (dictGet dict r.message_id).isSome ||
      (match ctx.fetchMessage m.channel_id r.message_id with
       | FetchRes.otherError => false
       | _ => true)

/-- Block-start condition as amended: the reply-reference disjunct only
counts when resolution does not clear the reference. -/
def c1_rhs_amended (ctx : Ctx) (dict : List Message) (m : Message) :
    Option MutMessage → Bool
  | none => true
  | some p =>
    reference_survives ctx dict m || m.interaction.isSome
      || decide (p.type ≠ MessageType.DEFAULT)
      || decide (p.author.id ≠ m.author.id)
      || m.webhook_id.isSome
      || decide (p.created_at.instant + 240 < m.created_at.instant)

/-- Membership test of a message in the count the amended aggregate claim
uses: a message of author `x` processed through the normal build path. -/
def counted (x : Nat) (m : Message) : Bool :=
  !is_audit_type m.type && decide (m.author.id = x)

/-- Placeholder datetime for default values. -/
def zeroDatetime : Datetime := { seconds := 0, tzoffset := none }

/-- Placeholder author for default values. -/
def zeroAuthor : Author :=
  { id := 0, tag := "", username := "", display_name := "", bot := false,
    verified_bot := false, avatar_url := "", created_at := zeroDatetime,
    joined_at := none, is_member := false }

/-- Placeholder message for default values. -/
def zeroMessage : Message :=
  { id := 0, author := zeroAuthor, content := "", created_at := zeroDatetime,
    edited_timestamp := none, type := MessageType.DEFAULT, message_reference := none,
    interaction := none, webhook_id := none, mention_ids := [], embeds := [],
    attachments := [], components := [], reactions := [], channel_id := 0,
    channel_is_thread := false }

/-- Placeholder construction result backing `getOk`. -/
def zeroBuildOut : BuildOut :=
  { msg := zeroMessage.toMut, frags := [], meta := [], started := false,
    boundary := false, fetches := [] }

/-- Value of a successful construction (placeholder on error). -/
def getOk (r : Except String BuildOut) : BuildOut :=
  match r with
  | Except.ok o => o
  | Except.error _ => zeroBuildOut

/-! ## Helper lemmas -/

theorem append_ne_empty_of_left (s t : String) (h : s.length ≠ 0) : s ++ t ≠ "" := by
  intro he
  apply h
  have h2 := congrArg String.length he
  rw [String.length_append] at h2
  simp only [String.length] at h2 ⊢
  simp at h2
  omega

theorem render_message_reference_ne (a b c d e f g h : String) (u mid : Nat) :
    render_message_reference a b c d e f g h u mid ≠ "" := by
  unfold render_message_reference
  exact append_ne_empty_of_left _ _ (by decide)

theorem render_message_interaction_ne (a b c d e f : String) (u i : Nat) :
    render_message_interaction a b c d e f u i ≠ "" := by
  unfold render_message_interaction
  exact append_ne_empty_of_left _ _ (by decide)

theorem set_time_ok_of_tz_ok (ctx : Ctx) (m : Message) (h : tz_ok m = true) :
    ∃ p, set_time ctx m.created_at.tzoffset m.created_at m.edited_timestamp = Except.ok p := by
  unfold tz_ok at h
  unfold set_time to_local_time_str pytzLocalize
  cases hc : m.created_at.tzoffset with
  | none =>
    cases he : m.edited_timestamp with
    | none => simp [hc]
    | some e =>
      cases het : e.tzoffset with
      | none => simp [hc, het]
      | some o => rw [hc, he] at h; simp [het] at h
  | some o => cases he : m.edited_timestamp <;> simp [hc]

theorem metaFind_metaSet_self (meta : Meta) (k : Nat) (e e' : MetaEntry)
    (h : metaFind meta k = some e) : metaFind (metaSet meta k e') k = some e' := by
  induction meta with
  | nil => simp [metaFind] at h
  | cons hd t ih =>
    obtain ⟨k0, e0⟩ := hd
    by_cases hk : k0 = k
    · subst hk; simp [metaFind, metaSet]
    · simp only [metaFind, metaSet, if_neg hk] at h ⊢
      exact ih h

theorem metaFind_metaSet_ne (meta : Meta) (k x : Nat) (e' : MetaEntry) (h : x ≠ k) :
    metaFind (metaSet meta k e') x = metaFind meta x := by
  induction meta with
  | nil => simp [metaSet]
  | cons hd t ih =>
    obtain ⟨k0, e0⟩ := hd
    by_cases hk : k0 = k
    · simp only [hk, metaSet, if_pos rfl, metaFind]
      rw [if_neg (fun hh : k = x => h hh.symm)]
      rw [if_neg (fun hh : k = x => h hh.symm)]
    · by_cases hx : k0 = x <;> simp [metaSet, metaFind, hk, hx, h, ih]

theorem metaFind_append (l l' : Meta) (x : Nat) :
    metaFind (l ++ l') x =
      match metaFind l x with
      | some e => some e
      | none => metaFind l' x := by
  induction l with
  | nil => simp [metaFind]
  | cons hd t ih =>
    obtain ⟨k0, e0⟩ := hd
    by_cases hk : k0 = x <;> simp [metaFind, hk, ih]

theorem metaCount_build (a : Author) (meta : Meta) (x : Nat) :
    metaCount (build_meta_data a meta) x
      = metaCount meta x + (if a.id = x then 1 else 0) := by
  unfold build_meta_data
  cases hf : metaFind meta a.id with
  | some e =>
    by_cases hx : a.id = x
    · subst hx
      simp [metaCount, metaFind_metaSet_self meta a.id e _ hf, hf]
    · simp [metaCount, metaFind_metaSet_ne meta a.id x _ (fun hh => hx hh.symm), hx]
  | none =>
    unfold metaCount
    rw [metaFind_append]
    by_cases hx : a.id = x
    · subst hx
      simp [hf, metaFind]
    · cases hmx : metaFind meta x <;> simp [hmx, metaFind, hx]

theorem construct_meta (ctx : Ctx) (m : Message) (prevM : Option MutMessage) (meta : Meta)
    (dict : List Message) (out : BuildOut)
    (hok : construct_message ctx m prevM meta dict = Except.ok out) :
    out.meta = if is_audit_type m.type then meta else build_meta_data m.author meta := by
  unfold construct_message at hok
  cases hst : set_time ctx m.created_at.tzoffset m.created_at m.edited_timestamp with
  | error e => rw [hst] at hok; simp at hok
  | ok p =>
    obtain ⟨cs, es⟩ := p
    rw [hst] at hok
    simp only [] at hok
    cases htype : m.type with
    | CHANNEL_PINNED_MESSAGE =>
      rw [htype] at hok
      cases href : m.message_reference with
      | some r => simp [href] at hok; simp [is_audit_type, ← hok]
      | none => simp [href] at hok
    | THREAD_CREATED =>
      rw [htype] at hok
      simp at hok
      simp [is_audit_type, ← hok]
    | RECIPIENT_REMOVE =>
      rw [htype] at hok
      cases hmid : m.mention_ids with
      | nil => simp [hmid] at hok
      | cons mid mids =>
        cases hmem : ctx.memberOf mid with
        | none => simp [hmid, hmem] at hok
        | some mem => simp [hmid, hmem] at hok; simp [is_audit_type, ← hok]
    | RECIPIENT_ADD =>
      rw [htype] at hok
      cases hmid : m.mention_ids with
      | nil => simp [hmid] at hok
      | cons mid mids =>
        cases hmem : ctx.memberOf mid with
        | none => simp [hmid, hmem] at hok
        | some mem => simp [hmid, hmem] at hok; simp [is_audit_type, ← hok]
    | DEFAULT =>
      rw [htype] at hok
      simp only [] at hok
      unfold construct_normal at hok
      cases hbr : build_reference ctx dict m.created_at.tzoffset (build_content m.toMut es).1 with
      | error e => simp [hbr] at hok
      | ok q =>
        obtain ⟨st2, fetches⟩ := q
        simp [hbr] at hok
        simp [is_audit_type, ← hok]
    | REPLY =>
      rw [htype] at hok
      simp only [] at hok
      unfold construct_normal at hok
      cases hbr : build_reference ctx dict m.created_at.tzoffset (build_content m.toMut es).1 with
      | error e => simp [hbr] at hok
      | ok q =>
        obtain ⟨st2, fetches⟩ := q
        simp [hbr] at hok
        simp [is_audit_type, ← hok]

theorem construct_meta_count (ctx : Ctx) (m : Message) (prevM : Option MutMessage)
    (meta : Meta) (dict : List Message) (out : BuildOut) (x : Nat)
    (hok : construct_message ctx m prevM meta dict = Except.ok out) :
    metaCount out.meta x = metaCount meta x + (if counted x m then 1 else 0) := by
  rw [construct_meta ctx m prevM meta dict out hok]
  cases ha : is_audit_type m.type with
  | true => simp [counted, ha]
  | false =>
    rw [if_neg (by simp [ha])]
    rw [metaCount_build]
    by_cases hax : m.author.id = x <;> simp [counted, ha, hax]

theorem gather_loop_count (ctx : Ctx) (dict : List Message) (x : Nat) :
    ∀ (msgs : List Message) (prevM : Option MutMessage) (html : List Fragment)
      (meta : Meta) (h : List Fragment) (mfin : Meta),
      gather_loop ctx dict msgs prevM html meta = Except.ok (h, mfin) →
      metaCount mfin x = metaCount meta x + (msgs.filter (counted x)).length := by
  intro msgs
  induction msgs with
  | nil =>
    intro prevM html meta h mfin hok
    unfold gather_loop at hok
    simp at hok
    simp [← hok.2]
  | cons m rest ih =>
    intro prevM html meta h mfin hok
    unfold gather_loop at hok
    cases hc : construct_message ctx m prevM meta dict with
    | error e => rw [hc] at hok; simp at hok
    | ok out =>
      rw [hc] at hok
      simp only [] at hok
      have hrec := ih (some out.msg) (html ++ out.frags) out.meta h mfin hok
      rw [hrec, construct_meta_count ctx m prevM meta dict out x hc]
      by_cases hcm : counted x m
      · simp [List.filter_cons, hcm]
        omega
      · simp [List.filter_cons, hcm]

theorem gather_meta_count (ctx : Ctx) (msgs : List Message) (h : List Fragment)
    (meta : Meta) (x : Nat)
    (hns : thread_substitution msgs = false)
    (hok : gather_messages ctx msgs = Except.ok (h, meta)) :
    metaCount meta x = (msgs.filter (counted x)).length := by
  unfold gather_messages at hok
  cases msgs with
  | nil => simp at hok
  | cons m0 rest =>
    simp only [] at hok
    have hloop :
        ∀ (hrun : run_transcript ctx (m0 :: rest) (m0 :: rest) = Except.ok (h, meta)),
          metaCount meta x = ((m0 :: rest).filter (counted x)).length := by
      intro hrun
      unfold run_transcript at hrun
      cases hl : gather_loop ctx (m0 :: rest) (m0 :: rest) none [] [] with
      | error e => rw [hl] at hrun; simp at hrun
      | ok q =>
        obtain ⟨h0, meta0⟩ := q
        rw [hl] at hrun
        simp at hrun
        have := gather_loop_count ctx (m0 :: rest) x (m0 :: rest) none [] [] h0 meta0 hl
        rw [← hrun.2]
        simpa [metaCount, metaFind] using this
    cases href : m0.message_reference with
    | none => rw [href] at hok; exact hloop hok
    | some r =>
      have hth : m0.channel_is_thread = false := by
        simp [thread_substitution, href] at hns
        exact hns
      rw [href] at hok
      simp only [hth, if_neg] at hok
      simp at hok
      exact hloop hok

theorem metaFind_isSome_of_count_pos (meta : Meta) (x : Nat) (h : 0 < metaCount meta x) :
    (metaFind meta x).isSome = true := by
  unfold metaCount at h
  cases hf : metaFind meta x with
  | none => rw [hf] at h; simp at h
  | some e => simp

theorem roleLe_total (a b : Role) (h : roleLe a b = false) : roleLe b a = true := by
  unfold roleLe at *
  simp at h ⊢
  omega

theorem roleLe_trans (a b c : Role) (h1 : roleLe a b = true) (h2 : roleLe b c = true) :
    roleLe a c = true := by
  unfold roleLe at *
  simp at h1 h2 ⊢
  omega

theorem not_roleLt_of_roleLe (a b : Role) (h1 : roleLe a b = true) (h2 : roleLt b a = true) :
    False := by
  unfold roleLe at h1
  unfold roleLt at h2
  simp at h1 h2
  omega

theorem mem_insertRole (x b : Role) (l : List Role) :
    b ∈ insertRole x l ↔ b = x ∨ b ∈ l := by
  induction l with
  | nil => simp [insertRole]
  | cons y ys ih =>
    by_cases hxy : roleLe x y = true
    · simp [insertRole, hxy]
    · rw [insertRole, if_neg hxy]
      simp [ih]
      tauto

theorem pairwise_insertRole (x : Role) (l : List Role)
    (hl : l.Pairwise (fun a b => roleLe a b = true)) :
    (insertRole x l).Pairwise (fun a b => roleLe a b = true) := by
  induction l with
  | nil => simp [insertRole]
  | cons y ys ih =>
    rcases List.pairwise_cons.mp hl with ⟨hy, hys⟩
    by_cases hxy : roleLe x y = true
    · simp only [insertRole, if_pos hxy]
      refine List.pairwise_cons.mpr ⟨?_, hl⟩
      intro b hb
      cases hb with
      | head => exact hxy
      | tail _ hbt => exact roleLe_trans x y b hxy (hy b hbt)
    · rw [insertRole, if_neg hxy]
      refine List.pairwise_cons.mpr ⟨?_, ih hys⟩
      intro b hb
      rcases (mem_insertRole x b ys).mp hb with hbx | hbys
      · rw [hbx]
        exact roleLe_total x y (by simpa using hxy)
      · exact hy b hbys

theorem sortRoles_pairwise (l : List Role) :
    (sortRoles l).Pairwise (fun a b => roleLe a b = true) := by
  induction l with
  | nil => simp [sortRoles]
  | cons x xs ih => exact pairwise_insertRole x (sortRoles xs) ih

theorem mem_sortRoles (b : Role) (l : List Role) : b ∈ sortRoles l ↔ b ∈ l := by
  induction l with
  | nil => simp [sortRoles]
  | cons x xs ih => simp [sortRoles, mem_insertRole, ih]

theorem find_colored_eq (lr : List Role)
    (hp : lr.Pairwise (fun a b => roleLe b a = true)) (r : Role)
    (hr : r ∈ lr) (hc : r.colour ≠ 0)
    (hmax : ∀ q ∈ lr, q.colour ≠ 0 → q ≠ r → roleLt q r = true) :
    lr.find? (fun q => decide (q.colour ≠ 0)) = some r := by
  induction lr with
  | nil => cases hr
  | cons hd t ih =>
    rcases List.pairwise_cons.mp hp with ⟨hhd, ht⟩
    by_cases hcol : hd.colour ≠ 0
    · have hdr : hd = r := by
        by_contra hne
        have hlt := hmax hd (List.mem_cons_self hd t) hcol hne
        cases hr with
        | head => exact hne rfl
        | tail _ hrt => exact not_roleLt_of_roleLe r hd (hhd r hrt) hlt
      subst hdr
      simp [List.find?, hcol]
    · have hrne : r ≠ hd := fun he => hc (by rw [he]; simpa using hcol)
      have hrt : r ∈ t := by
        cases hr with
        | head => exact absurd rfl hrne
        | tail _ hx => exact hx
      have : List.find? (fun q => decide (q.colour ≠ 0)) (hd :: t)
          = List.find? (fun q => decide (q.colour ≠ 0)) t := by
        simp [List.find?, hcol]
      rw [this]
      exact ih ht hrt (fun q hq hq0 hqr => hmax q (List.mem_cons_of_mem hd hq) hq0 hqr)

theorem hexChar_eq_zero (n : Nat) (hn : n < 16) (h : hexChar n = '0') : n = 0 := by
  interval_cases n <;> first | rfl | exact absurd h (by decide)

theorem colorStr_ne_black (v : Nat) (hv : v ≠ 0) (hlt : v < 16777216) :
    colorStr v ≠ "#000000" := by
  intro he
  unfold colorStr at he
  have hdata := congrArg String.data he
  have hblack : ("#000000" : String).data = ['#', '0', '0', '0', '0', '0', '0'] := rfl
  rw [hblack] at hdata
  simp only [String.data] at hdata
  simp at hdata
  obtain ⟨h1, h2, h3, h4, h5, h6⟩ := hdata
  have e1 := hexChar_eq_zero _ (Nat.mod_lt _ (by omega)) h1
  have e2 := hexChar_eq_zero _ (Nat.mod_lt _ (by omega)) h2
  have e3 := hexChar_eq_zero _ (Nat.mod_lt _ (by omega)) h3
  have e4 := hexChar_eq_zero _ (Nat.mod_lt _ (by omega)) h4
  have e5 := hexChar_eq_zero _ (Nat.mod_lt _ (by omega)) h5
  have e6 := hexChar_eq_zero _ (Nat.mod_lt _ (by omega)) h6
  omega

/-! ## Claim C9 -/

/-- C9: for every author and guild, the colour resolver returns the colour
of the highest-hierarchy role among the member's roles excluding the
guild's everyone role that has a non-default colour, with hierarchy ties
broken by role id descending; it returns white when no such coloured role
exists, and it returns white with no role icon, rather than raising, when
the guild membership lookup for the author fails. -/
theorem c9_colour_resolver (ctx : Ctx) (aid : Nat) :
    (ctx.memberOf aid = none →
      gather_user_colour ctx aid = "color: #FFFFFF;" ∧ gather_user_icon ctx aid = "")
    ∧ (∀ mem, ctx.memberOf aid = some mem →
        ((∀ q ∈ mem.roles, q.id ≠ ctx.guild_id → q.colour = 0) →
          gather_user_colour ctx aid = "color: #FFFFFF;")
        ∧ (∀ r, r ∈ mem.roles → r.id ≠ ctx.guild_id → r.colour ≠ 0 →
            r.colour < 16777216 →
            (∀ q ∈ mem.roles, q.id ≠ ctx.guild_id → q.colour ≠ 0 → q ≠ r →
              roleLt q r = true) →
            gather_user_colour ctx aid = "color: " ++ colorStr r.colour ++ ";")) := by
  constructor
  · intro hnone
    constructor
    · simp [gather_user_colour, hnone]
    · simp [gather_user_icon, hnone]
  · intro mem hmem
    constructor
    · intro hall
      unfold gather_user_colour
      rw [hmem]
      have hfind :
          (sortRoles (mem.roles.filter (fun q => decide (q.id ≠ ctx.guild_id)))).reverse.find?
            (fun q => decide (q.colour ≠ 0)) = none := by
        rw [List.find?_eq_none]
        intro q hq
        rw [List.mem_reverse, mem_sortRoles, List.mem_filter] at hq
        have := hall q hq.1 (by simpa using hq.2)
        simp [this]
      simp only []
      rw [hfind]
    · intro r hr hrid hrc hrlt hmax
      unfold gather_user_colour
      rw [hmem]
      have hfind :
          (sortRoles (mem.roles.filter (fun q => decide (q.id ≠ ctx.guild_id)))).reverse.find?
            (fun q => decide (q.colour ≠ 0)) = some r := by
        apply find_colored_eq
        · exact List.pairwise_reverse.mpr
            (sortRoles_pairwise (mem.roles.filter (fun q => decide (q.id ≠ ctx.guild_id))))
        · rw [List.mem_reverse, mem_sortRoles, List.mem_filter]
          exact ⟨hr, by simpa using hrid⟩
        · exact hrc
        · intro q hq hq0 hqr
          rw [List.mem_reverse, mem_sortRoles, List.mem_filter] at hq
          exact hmax q hq.1 (by simpa using hq.2) hq0 hqr
      simp only []
      rw [hfind]
      simp only []
      rw [if_pos (colorStr_ne_black r.colour hrc hrlt)]

/-! ## Concrete sample values -/

/-- Sample author for the concrete instances below. -/
def authW : Author :=
  { id := 5, tag := "user#0001", username := "user", display_name := "user",
    bot := false, verified_bot := false, avatar_url := "avatar-url",
    created_at := { seconds := 0, tzoffset := some 0 }, joined_at := none,
    is_member := false }

/-- Sample normal message for the concrete instances below. -/
def msgW : Message :=
  { id := 100, author := authW, content := "hi",
    created_at := { seconds := 1000, tzoffset := some 0 }, edited_timestamp := none,
    type := MessageType.DEFAULT, message_reference := none, interaction := none,
    webhook_id := none, mention_ids := [], embeds := [], attachments := [],
    components := [], reactions := [], channel_id := 1, channel_is_thread := false }

/-- Sample context with no members and failing remote fetches. -/
def ctxW : Ctx :=
  { guild_id := 1, memberOf := fun _ => none,
    fetchMessage := fun _ _ => FetchRes.otherError, displayOff := 0, sysOff := 0,
    militaryTime := true }

/-- Sample member carrying coloured roles for the C9 instance. -/
def mem9 : Member :=
  { id := 5, tag := "user#0009", display_name := "user",
    roles :=
      [ { id := 4, position := 0, colour := 16, icon := none },
        { id := 1, position := 5, colour := 999, icon := none },
        { id := 2, position := 1, colour := 255, icon := none },
        { id := 3, position := 2, colour := 0, icon := none } ] }

/-- Sample context whose guild has the member `mem9`. -/
def ctx9 : Ctx :=
  { guild_id := 1, memberOf := fun i => if i = 5 then some mem9 else none,
    fetchMessage := fun _ _ => FetchRes.otherError, displayOff := 0, sysOff := 0,
    militaryTime := true }

/-- Witness for C9: the member's coloured roles are ranked (position 1,
id 2, colour 255) above (position 0, id 4, colour 16); the everyone role
(id 1) is excluded even though it is coloured and highest. -/
theorem c9_colour_resolver_witness :
    gather_user_colour ctx9 5 = "color: " ++ colorStr 255 ++ ";" :=
  ((c9_colour_resolver ctx9 5).2 mem9 (by rfl)).2
    { id := 2, position := 1, colour := 255, icon := none }
    (by decide) (by decide) (by decide) (by decide) (by decide)

/-! ## Claim C7 -/

/-- C7: member-added/removed messages resolve the target member as the
first id of the mention list; the rendered notice carries exactly that
member's tag, and when the member fetch fails the whole construction
fails and the error propagates out of the assembler, unlike soft-failed
reply resolution. -/
theorem c7_member_events (ctx : Ctx) (m : Message) (prevM : Option MutMessage)
    (meta : Meta) (dict rest : List Message) (mid : Nat) (mids : List Nat)
    (hty : m.type = MessageType.RECIPIENT_REMOVE ∨ m.type = MessageType.RECIPIENT_ADD)
    (hm : m.mention_ids = mid :: mids)
    (htz : tz_ok m = true)
    (hnt : m.channel_is_thread = false) :
    ((construct_message ctx m prevM meta dict).toOption.map (fun o => recipientTag o.frags)
      = (ctx.memberOf mid).map (fun mem => some mem.tag))
    ∧ (ctx.memberOf mid = none →
        isErr (construct_message ctx m prevM meta dict) = true
        ∧ isErr (gather_messages ctx (m :: rest)) = true) := by
  obtain ⟨p, hst⟩ := set_time_ok_of_tz_ok ctx m htz
  obtain ⟨cs, es⟩ := p
  have hloop : ∀ (meta' : Meta) (prevM' : Option MutMessage) (dict' : List Message),
      (construct_message ctx m prevM' meta' dict').toOption.map (fun o => recipientTag o.frags)
        = (ctx.memberOf mid).map (fun mem => some mem.tag)
      ∧ (ctx.memberOf mid = none →
          isErr (construct_message ctx m prevM' meta' dict') = true) := by
    intro meta' prevM' dict'
    cases hty with
    | inl h =>
      cases hmem : ctx.memberOf mid with
      | none => simp [construct_message, hst, h, hm, hmem, isErr, Except.toOption]
      | some mem =>
        simp [construct_message, hst, h, hm, hmem, isErr]
        cases prevM' <;> simp [closePrev, recipientTag, Except.toOption]
    | inr h =>
      cases hmem : ctx.memberOf mid with
      | none => simp [construct_message, hst, h, hm, hmem, isErr, Except.toOption]
      | some mem =>
        simp [construct_message, hst, h, hm, hmem, isErr]
        cases prevM' <;> simp [closePrev, recipientTag, Except.toOption]
  refine ⟨(hloop meta prevM dict).1, fun hmem => ⟨(hloop meta prevM dict).2 hmem, ?_⟩⟩
  have herr := (hloop [] none (m :: rest)).2 hmem
  cases hcm : construct_message ctx m none [] (m :: rest) with
  | ok out => rw [hcm] at herr; simp [isErr] at herr
  | error e =>
    cases href : m.message_reference with
    | none =>
      simp [gather_messages, href, run_transcript, gather_loop, hcm, isErr]
    | some r =>
      simp [gather_messages, href, hnt, run_transcript, gather_loop, hcm, isErr]

/-- Sample member for the C7 instance. -/
def mem7 : Member :=
  { id := 3, tag := "removed#0007", display_name := "removed", roles := [] }

/-- Sample context whose guild has only the member with id 3. -/
def ctx7 : Ctx :=
  { guild_id := 1, memberOf := fun i => if i = 3 then some mem7 else none,
    fetchMessage := fun _ _ => FetchRes.otherError, displayOff := 0, sysOff := 0,
    militaryTime := true }

/-- Sample member-removed message for the C7 instance. -/
def msg7 : Message :=
  { msgW with type := MessageType.RECIPIENT_REMOVE, mention_ids := [3] }

/-- Witness for C7: the removed-member notice names exactly the tag of the
member fetched for the first mentioned id. -/
theorem c7_member_events_witness :
    (construct_message ctx7 msg7 none [] []).toOption.map (fun o => recipientTag o.frags)
      = (ctx7.memberOf 3).map (fun mem => some mem.tag) :=
  (c7_member_events ctx7 msg7 none [] [] [] 3 [] (Or.inl rfl) (by rfl) (by decide)
    (by rfl)).1

/-! ## Structural lemmas about the normal build pipeline -/

theorem build_content_preserve (st : MutMessage) (es : String) :
    ((build_content st es).1.message_reference = st.message_reference)
    ∧ ((build_content st es).1.interaction = st.interaction)
    ∧ ((build_content st es).1.channel_id = st.channel_id)
    ∧ ((build_content st es).1.author = st.author)
    ∧ ((build_content st es).1.created_at = st.created_at)
    ∧ ((build_content st es).1.webhook_id = st.webhook_id)
    ∧ ((build_content st es).1.id = st.id)
    ∧ ((build_content st es).1.type = st.type)
    ∧ ((build_content st es).1.edited_timestamp = st.edited_timestamp)
    ∧ ((build_content st es).1.mention_ids = st.mention_ids)
    ∧ ((build_content st es).1.embeds = st.embeds)
    ∧ ((build_content st es).1.attachments = st.attachments)
    ∧ ((build_content st es).1.components = st.components)
    ∧ ((build_content st es).1.reactions = st.reactions)
    ∧ ((build_content st es).1.channel_is_thread = st.channel_is_thread) := by
  unfold build_content
  split <;> simp

theorem build_interaction_preserve (ctx : Ctx) (st : MutMessage) :
    ((build_interaction ctx st).message_reference = st.message_reference)
    ∧ ((build_interaction ctx st).content = st.content)
    ∧ ((build_interaction ctx st).channel_id = st.channel_id)
    ∧ ((build_interaction ctx st).author = st.author)
    ∧ ((build_interaction ctx st).created_at = st.created_at)
    ∧ ((build_interaction ctx st).webhook_id = st.webhook_id)
    ∧ ((build_interaction ctx st).id = st.id)
    ∧ ((build_interaction ctx st).type = st.type)
    ∧ ((build_interaction ctx st).edited_timestamp = st.edited_timestamp)
    ∧ ((build_interaction ctx st).mention_ids = st.mention_ids)
    ∧ ((build_interaction ctx st).embeds = st.embeds)
    ∧ ((build_interaction ctx st).attachments = st.attachments)
    ∧ ((build_interaction ctx st).components = st.components)
    ∧ ((build_interaction ctx st).reactions = st.reactions)
    ∧ ((build_interaction ctx st).channel_is_thread = st.channel_is_thread) := by
  unfold build_interaction
  cases st.interaction <;> simp

theorem build_interaction_neEmpty (ctx : Ctx) (st : MutMessage) (i : Option Interaction)
    (hi : st.interaction = (Message.toMut { zeroMessage with interaction := i }).interaction) :
    (build_interaction ctx st).interaction.neEmpty = i.isSome := by
  unfold build_interaction
  cases i with
  | none =>
    simp [Message.toMut, zeroMessage] at hi
    simp [hi, IntSlot.neEmpty]
  | some iv =>
    simp [Message.toMut, zeroMessage] at hi
    simp [hi, IntSlot.neEmpty, render_message_interaction_ne]

theorem build_reference_preserve (ctx : Ctx) (dict : List Message) (tz : Option Int)
    (st st2 : MutMessage) (fetches : List Nat)
    (hbr : build_reference ctx dict tz st = Except.ok (st2, fetches)) :
    (st2.interaction = st.interaction) ∧ (st2.author = st.author)
    ∧ (st2.webhook_id = st.webhook_id) ∧ (st2.created_at = st.created_at)
    ∧ (st2.content = st.content) ∧ (st2.id = st.id) ∧ (st2.type = st.type)
    ∧ (st2.edited_timestamp = st.edited_timestamp)
    ∧ (st2.mention_ids = st.mention_ids) ∧ (st2.embeds = st.embeds)
    ∧ (st2.attachments = st.attachments) ∧ (st2.components = st.components)
    ∧ (st2.reactions = st.reactions) ∧ (st2.channel_id = st.channel_id)
    ∧ (st2.channel_is_thread = st.channel_is_thread) := by
  unfold build_reference at hbr
  cases hrs : st.message_reference with
  | noneV => rw [hrs] at hbr; simp at hbr; simp [← hbr.1]
  | str s => rw [hrs] at hbr; simp at hbr
  | obj r =>
    rw [hrs] at hbr
    simp only [] at hbr
    cases hd : dictGet dict r.message_id with
    | some refMsg =>
      rw [hd] at hbr
      simp only [] at hbr
      cases hset : set_time ctx tz refMsg.created_at refMsg.edited_timestamp with
      | error e => rw [hset] at hbr; simp at hbr
      | ok q =>
        obtain ⟨q1, q2⟩ := q
        rw [hset] at hbr
        simp at hbr
        simp [← hbr.1]
    | none =>
      rw [hd] at hbr
      simp only [] at hbr
      cases hf : ctx.fetchMessage st.channel_id r.message_id with
      | found refMsg =>
        rw [hf] at hbr
        simp only [] at hbr
        cases hset : set_time ctx tz refMsg.created_at refMsg.edited_timestamp with
        | error e => rw [hset] at hbr; simp at hbr
        | ok q =>
          obtain ⟨q1, q2⟩ := q
          rw [hset] at hbr
          simp at hbr
          simp [← hbr.1]
      | notFound => rw [hf] at hbr; simp at hbr; simp [← hbr.1]
      | otherError => rw [hf] at hbr; simp at hbr; simp [← hbr.1]

theorem build_reference_fail_total (ctx : Ctx) (dict : List Message) (tz : Option Int)
    (st : MutMessage) (r : MessageReference)
    (hrs : st.message_reference = RefSlot.obj r)
    (habs : dictGet dict r.message_id = none) :
    (ctx.fetchMessage st.channel_id r.message_id = FetchRes.notFound →
      build_reference ctx dict tz st = Except.ok
        ({ st with message_reference := RefSlot.str message_reference_unknown },
          [r.message_id]))
    ∧ (ctx.fetchMessage st.channel_id r.message_id = FetchRes.otherError →
      build_reference ctx dict tz st = Except.ok
        ({ st with message_reference := RefSlot.str "" }, [r.message_id])) := by
  constructor <;> intro hf <;> simp [build_reference, hrs, habs, hf]

theorem countEnd_closePrev_append (prevM : Option MutMessage) (f : Fragment)
    (hf : isEnd f = false) :
    countEnd (closePrev prevM ++ [f]) = if prevM.isSome then 1 else 0 := by
  have hend : isEnd Fragment.end_message = true := rfl
  cases prevM with
  | none =>
    simp only [closePrev, List.nil_append, countEnd, List.filter_cons, hf]
    simp
  | some p =>
    simp only [closePrev, List.cons_append, List.nil_append, countEnd, List.filter_cons,
      hf, hend]
    simp

theorem isEmpty_closePrev_append (prevM : Option MutMessage) (f : Fragment) :
    (closePrev prevM ++ [f]).isEmpty = false := by
  cases prevM <;> simp [closePrev]

theorem construct_normal_out (ctx : Ctx) (m : Message) (prevM : Option MutMessage)
    (meta : Meta) (dict : List Message) (cs es : String) (st2 : MutMessage)
    (fetches : List Nat)
    (hbr : build_reference ctx dict m.created_at.tzoffset (build_content m.toMut es).1
        = Except.ok (st2, fetches)) :
    ∃ out, construct_normal ctx m prevM meta dict cs es = Except.ok out
      ∧ out.msg = build_interaction ctx st2
      ∧ out.fetches = fetches
      ∧ out.started = divider_check prevM (build_interaction ctx st2)
      ∧ out.boundary = divider_check prevM (build_interaction ctx st2)
      ∧ out.frags.isEmpty = false
      ∧ countEnd out.frags
          = (if prevM.isSome && divider_check prevM (build_interaction ctx st2)
             then 1 else 0) := by
  simp only [construct_normal]
  rw [hbr]
  simp only []
  cases hdc : divider_check prevM (build_interaction ctx st2) with
  | true =>
    simp only [generate_message_divider, hdc, if_true]
    refine ⟨_, rfl, rfl, rfl, rfl, rfl, ?_, ?_⟩
    · exact isEmpty_closePrev_append prevM _
    · rw [countEnd_closePrev_append prevM _ (by rfl)]
      cases prevM <;> simp
  | false =>
    simp only [generate_message_divider, hdc, if_false]
    refine ⟨_, rfl, rfl, rfl, rfl, rfl, ?_, ?_⟩
    · simp
    · simp [countEnd, List.filter, isEnd]

theorem construct_normal_fetches (ctx : Ctx) (m : Message) (prevM : Option MutMessage)
    (meta : Meta) (dict : List Message) (cs es : String) (out : BuildOut)
    (hok : construct_normal ctx m prevM meta dict cs es = Except.ok out) :
    ∃ st2, build_reference ctx dict m.created_at.tzoffset (build_content m.toMut es).1
        = Except.ok (st2, out.fetches) := by
  simp only [construct_normal] at hok
  cases hbr : build_reference ctx dict m.created_at.tzoffset (build_content m.toMut es).1 with
  | error e => rw [hbr] at hok; simp at hok
  | ok q =>
    obtain ⟨st2, fetches⟩ := q
    rw [hbr] at hok
    simp only [Except.ok.injEq] at hok
    refine ⟨st2, ?_⟩
    have hfe : out.fetches = fetches := by rw [← hok]
    rw [hfe]

theorem build_reference_fetch_trace (ctx : Ctx) (dict : List Message) (tz : Option Int)
    (st st2 : MutMessage) (fetches : List Nat) (r : MessageReference)
    (hrs : st.message_reference = RefSlot.obj r)
    (habs : dictGet dict r.message_id = none)
    (hbr : build_reference ctx dict tz st = Except.ok (st2, fetches)) :
    fetches = [r.message_id] := by
  unfold build_reference at hbr
  rw [hrs] at hbr
  simp only [] at hbr
  rw [habs] at hbr
  simp only [] at hbr
  cases hf : ctx.fetchMessage st.channel_id r.message_id with
  | found refMsg =>
    rw [hf] at hbr
    simp only [] at hbr
    cases hset : set_time ctx tz refMsg.created_at refMsg.edited_timestamp with
    | error e => rw [hset] at hbr; simp at hbr
    | ok q =>
      obtain ⟨a, b⟩ := q
      rw [hset] at hbr
      simp at hbr
      exact hbr.2.symm
  | notFound =>
    rw [hf] at hbr
    simp at hbr
    exact hbr.2.symm
  | otherError =>
    rw [hf] at hbr
    simp at hbr
    exact hbr.2.symm

/-! ## Claim C3 -/

/-- C3: a normal message whose reply-reference id is absent from the
in-memory map triggers exactly one remote fetch of that id; a not-found
failure substitutes the fixed deleted-message banner, any other failure
class clears the reference, and in both cases construction continues
without raising and the rest of the message still renders. -/
theorem c3_reference_resolution (ctx : Ctx) (m : Message) (prevM : Option MutMessage)
    (meta : Meta) (dict : List Message) (rid cid : Nat)
    (hty : m.type = MessageType.DEFAULT)
    (href : m.message_reference = some { message_id := rid, channel_id := cid })
    (habs : dictGet dict rid = none)
    (htz : tz_ok m = true) :
    (∀ out, construct_message ctx m prevM meta dict = Except.ok out → out.fetches = [rid])
    ∧ (ctx.fetchMessage m.channel_id rid = FetchRes.notFound →
        isErr (construct_message ctx m prevM meta dict) = false
        ∧ ∀ out, construct_message ctx m prevM meta dict = Except.ok out →
            out.msg.message_reference = RefSlot.str message_reference_unknown
            ∧ out.frags.isEmpty = false)
    ∧ (ctx.fetchMessage m.channel_id rid = FetchRes.otherError →
        isErr (construct_message ctx m prevM meta dict) = false
        ∧ ∀ out, construct_message ctx m prevM meta dict = Except.ok out →
            out.msg.message_reference = RefSlot.str ""
            ∧ out.frags.isEmpty = false) := by
  obtain ⟨p, hst⟩ := set_time_ok_of_tz_ok ctx m htz
  obtain ⟨cs, es⟩ := p
  have hred : construct_message ctx m prevM meta dict
      = construct_normal ctx m prevM meta dict cs es := by
    simp [construct_message, hst, hty]
  have hrs1 : (build_content m.toMut es).1.message_reference
      = RefSlot.obj { message_id := rid, channel_id := cid } := by
    rw [(build_content_preserve m.toMut es).1]
    simp [Message.toMut, href]
  have hch1 : (build_content m.toMut es).1.channel_id = m.channel_id := by
    rw [(build_content_preserve m.toMut es).2.2.1]
    simp [Message.toMut]
  refine ⟨?_, ?_, ?_⟩
  · intro out hok
    rw [hred] at hok
    obtain ⟨st2, hbr⟩ := construct_normal_fetches ctx m prevM meta dict cs es out hok
    exact build_reference_fetch_trace ctx dict m.created_at.tzoffset _ st2 out.fetches
      { message_id := rid, channel_id := cid } hrs1 habs hbr
  · intro hf
    have hbr := (build_reference_fail_total ctx dict m.created_at.tzoffset
      (build_content m.toMut es).1 { message_id := rid, channel_id := cid } hrs1 habs).1
      (by rw [hch1]; exact hf)
    obtain ⟨out, hok, hmsg, _, _, _, hne, _⟩ :=
      construct_normal_out ctx m prevM meta dict cs es _ _ hbr
    constructor
    · rw [hred, hok]; rfl
    · intro out2 hok2
      rw [hred, hok] at hok2
      simp only [Except.ok.injEq] at hok2
      rw [← hok2]
      refine ⟨?_, hne⟩
      rw [hmsg, (build_interaction_preserve ctx _).1]
  · intro hf
    have hbr := (build_reference_fail_total ctx dict m.created_at.tzoffset
      (build_content m.toMut es).1 { message_id := rid, channel_id := cid } hrs1 habs).2
      (by rw [hch1]; exact hf)
    obtain ⟨out, hok, hmsg, _, _, _, hne, _⟩ :=
      construct_normal_out ctx m prevM meta dict cs es _ _ hbr
    constructor
    · rw [hred, hok]; rfl
    · intro out2 hok2
      rw [hred, hok] at hok2
      simp only [Except.ok.injEq] at hok2
      rw [← hok2]
      refine ⟨?_, hne⟩
      rw [hmsg, (build_interaction_preserve ctx _).1]

/-- Sample message carrying a reply-reference to an unloaded id, for C3. -/
def msg3 : Message :=
  { msgW with message_reference := some { message_id := 99, channel_id := 1 } }

/-- Sample context whose remote fetches report not-found. -/
def ctx3 : Ctx :=
  { guild_id := 1, memberOf := fun _ => none,
    fetchMessage := fun _ _ => FetchRes.notFound, displayOff := 0, sysOff := 0,
    militaryTime := true }

/-- Construction output of the C3 sample input. -/
def out3 : BuildOut := getOk (construct_message ctx3 msg3 none [] [])

/-- Witness for C3: at the sample input the not-found fetch yields the
fixed deleted-message banner, construction does not raise, and the
message still renders fragments. -/
theorem c3_reference_resolution_witness :
    isErr (construct_message ctx3 msg3 none [] []) = false
    ∧ out3.msg.message_reference = RefSlot.str message_reference_unknown
    ∧ out3.frags.isEmpty = false :=
  ⟨((c3_reference_resolution ctx3 msg3 none [] [] 99 1 rfl rfl (by rfl) (by decide)).2.1
      rfl).1,
    (((c3_reference_resolution ctx3 msg3 none [] [] 99 1 rfl rfl (by rfl) (by decide)).2.1
      rfl).2 out3 (by rfl)).1,
    (((c3_reference_resolution ctx3 msg3 none [] [] 99 1 rfl rfl (by rfl) (by decide)).2.1
      rfl).2 out3 (by rfl)).2⟩

theorem build_reference_neEmpty (ctx : Ctx) (dict : List Message) (tz : Option Int)
    (st st2 : MutMessage) (fetches : List Nat) (m : Message)
    (hrs : st.message_reference = (Message.toMut m).message_reference)
    (hch : st.channel_id = m.channel_id)
    (hbr : build_reference ctx dict tz st = Except.ok (st2, fetches)) :
    st2.message_reference.neEmpty = reference_survives ctx dict m := by
  unfold build_reference at hbr
  cases href : m.message_reference with
  | none =>
    have hrs0 : st.message_reference = RefSlot.noneV := by
      rw [hrs]; simp [Message.toMut, href]
    rw [hrs0] at hbr
    simp at hbr
    rw [← hbr.1]
    simp [RefSlot.neEmpty, reference_survives, href]
  | some r =>
    have hrs0 : st.message_reference = RefSlot.obj r := by
      rw [hrs]; simp [Message.toMut, href]
    rw [hrs0] at hbr
    simp only [] at hbr
    cases hd : dictGet dict r.message_id with
    | some refMsg =>
      rw [hd] at hbr
      simp only [] at hbr
      cases hset : set_time ctx tz refMsg.created_at refMsg.edited_timestamp with
      | error e => rw [hset] at hbr; simp at hbr
      | ok q =>
        obtain ⟨q1, q2⟩ := q
        rw [hset] at hbr
        simp at hbr
        rw [← hbr.1]
        simp [RefSlot.neEmpty, render_message_reference_ne, reference_survives, href, hd]
    | none =>
      rw [hd] at hbr
      simp only [] at hbr
      cases hf : ctx.fetchMessage st.channel_id r.message_id with
      | found refMsg =>
        rw [hf] at hbr
        simp only [] at hbr
        cases hset : set_time ctx tz refMsg.created_at refMsg.edited_timestamp with
        | error e => rw [hset] at hbr; simp at hbr
        | ok q =>
          obtain ⟨q1, q2⟩ := q
          rw [hset] at hbr
          simp at hbr
          rw [← hbr.1]
          rw [hch] at hf
          simp [RefSlot.neEmpty, render_message_reference_ne, reference_survives, href,
            hd, hf]
      | notFound =>
        rw [hf] at hbr
        simp at hbr
        rw [← hbr.1]
        rw [hch] at hf
        simp [RefSlot.neEmpty, reference_survives, href, hd, hf, message_reference_unknown]
      | otherError =>
        rw [hf] at hbr
        simp at hbr
        rw [← hbr.1]
        rw [hch] at hf
        simp [RefSlot.neEmpty, reference_survives, href, hd, hf]

/-! ## Claim C1 -/

/-- C1 (amended): a normal-path message with a previous-message context
starts a new visual block exactly when the amended condition holds: no
previous message, or a surviving reply-reference, or an interaction, or a
non-default previous type, or a changed author, or a webhook origin, or a
gap of more than 4 minutes. -/
theorem c1_amended_divider (ctx : Ctx) (m : Message) (prevM : Option MutMessage)
    (meta : Meta) (dict : List Message) (out : BuildOut)
    (hty : is_audit_type m.type = false)
    (hok : construct_message ctx m prevM meta dict = Except.ok out) :
    out.started = c1_rhs_amended ctx dict m prevM := by
  cases hst : set_time ctx m.created_at.tzoffset m.created_at m.edited_timestamp with
  | error e => unfold construct_message at hok; rw [hst] at hok; simp at hok
  | ok p =>
    obtain ⟨cs, es⟩ := p
    have hred : construct_message ctx m prevM meta dict
        = construct_normal ctx m prevM meta dict cs es := by
      cases htype : m.type with
      | DEFAULT => simp [construct_message, hst, htype]
      | REPLY => simp [construct_message, hst, htype]
      | CHANNEL_PINNED_MESSAGE => rw [htype] at hty; simp [is_audit_type] at hty
      | THREAD_CREATED => rw [htype] at hty; simp [is_audit_type] at hty
      | RECIPIENT_REMOVE => rw [htype] at hty; simp [is_audit_type] at hty
      | RECIPIENT_ADD => rw [htype] at hty; simp [is_audit_type] at hty
    rw [hred] at hok
    obtain ⟨st2, hbr⟩ := construct_normal_fetches ctx m prevM meta dict cs es out hok
    obtain ⟨out', hok', _, _, hstarted, _, _, _⟩ :=
      construct_normal_out ctx m prevM meta dict cs es st2 out.fetches hbr
    have heq : out' = out := by
      rw [hok] at hok'
      exact ((Except.ok.injEq _ _).mp hok').symm
    rw [← heq, hstarted]
    have hA : (build_interaction ctx st2).message_reference.neEmpty
        = reference_survives ctx dict m := by
      rw [(build_interaction_preserve ctx st2).1]
      exact build_reference_neEmpty ctx dict m.created_at.tzoffset _ st2 out.fetches m
        ((build_content_preserve m.toMut es).1)
        (by rw [(build_content_preserve m.toMut es).2.2.1]; simp [Message.toMut])
        hbr
    have hC : (build_interaction ctx st2).interaction.neEmpty = m.interaction.isSome := by
      apply build_interaction_neEmpty ctx st2 m.interaction
      rw [(build_reference_preserve ctx dict m.created_at.tzoffset _ st2 out.fetches hbr).1]
      rw [(build_content_preserve m.toMut es).2.1]
      simp [Message.toMut, zeroMessage]
    have hAu : (build_interaction ctx st2).author = m.author := by
      rw [(build_interaction_preserve ctx st2).2.2.2.1]
      rw [(build_reference_preserve ctx dict m.created_at.tzoffset _ st2 out.fetches hbr).2.1]
      rw [(build_content_preserve m.toMut es).2.2.2.1]
      simp [Message.toMut]
    have hW : (build_interaction ctx st2).webhook_id = m.webhook_id := by
      rw [(build_interaction_preserve ctx st2).2.2.2.2.2.1]
      rw [(build_reference_preserve ctx dict m.created_at.tzoffset
        _ st2 out.fetches hbr).2.2.1]
      rw [(build_content_preserve m.toMut es).2.2.2.2.2.1]
      simp [Message.toMut]
    have hT : (build_interaction ctx st2).created_at = m.created_at := by
      rw [(build_interaction_preserve ctx st2).2.2.2.2.1]
      rw [(build_reference_preserve ctx dict m.created_at.tzoffset
        _ st2 out.fetches hbr).2.2.2.1]
      rw [(build_content_preserve m.toMut es).2.2.2.2.1]
      simp [Message.toMut]
    cases prevM with
    | none => simp [divider_check, c1_rhs_amended]
    | some pm =>
      simp only [divider_check, c1_rhs_amended, hA, hC, hAu, hW, hT]
      cases hb : decide (pm.type ≠ MessageType.DEFAULT) <;>
        cases hc2 : m.interaction.isSome <;> simp

/-- Previous-message context for the C1 instance: same author, default
type, 100 seconds before the message. -/
def prev1 : MutMessage :=
  Message.toMut { msgW with created_at := { seconds := 900, tzoffset := some 0 } }

/-- C1 (counterexample): `msg3` carries a reply-reference, its previous
message is a normal-type message of the same non-webhook author 100
seconds earlier, yet the builder continues the block because the fetch of
the referenced message fails with a non-not-found error and resolution
clears the reference before the divider check reads it. -/
theorem c1_divider_counterexample :
    (construct_message ctxW msg3 (some prev1) [] []).toOption.map (fun o => o.started)
      = some false
    ∧ c1_rhs_claim msg3 (some prev1) = true := by
  constructor
  · rfl
  · rfl

/-- Construction output of the C1 instance. -/
def out1 : BuildOut := getOk (construct_message ctxW msg3 (some prev1) [] [])

/-- Witness for the amended C1 at the concrete instance. -/
theorem c1_amended_divider_witness :
    out1.started = c1_rhs_amended ctxW [] msg3 (some prev1) :=
  c1_amended_divider ctxW msg3 (some prev1) [] [] out1 (by rfl) (by rfl)

theorem audit_close_count (prevM : Option MutMessage) (f : Fragment) (out : BuildOut)
    (hfr : out.frags = closePrev prevM ++ [f]) (hf : isEnd f = false)
    (hbd : out.boundary = true) :
    countEnd out.frags = (if prevM.isSome && out.boundary then 1 else 0)
    ∧ (prevM = none → countEnd out.frags = 0) := by
  have h1 : countEnd out.frags = (if prevM.isSome then 1 else 0) := by
    rw [hfr]; exact countEnd_closePrev_append prevM f hf
  refine ⟨?_, ?_⟩
  · rw [h1, hbd]; cases prevM <;> simp
  · intro hp; rw [h1, hp]; simp

/-! ## Claim C6 -/

/-- C6: the block-closing fragment is emitted exactly once at each block
boundary where a previous message exists, and never before the first
message of the transcript; pin, thread-created and member-added/removed
messages always trigger the boundary, bypassing the continuation
predicate. -/
theorem c6_block_close (ctx : Ctx) (m : Message) (prevM : Option MutMessage)
    (meta : Meta) (dict : List Message) (out : BuildOut)
    (hok : construct_message ctx m prevM meta dict = Except.ok out) :
    countEnd out.frags = (if prevM.isSome && out.boundary then 1 else 0)
    ∧ (prevM = none → countEnd out.frags = 0)
    ∧ (is_audit_type m.type = true → out.boundary = true) := by
  unfold construct_message at hok
  cases hst : set_time ctx m.created_at.tzoffset m.created_at m.edited_timestamp with
  | error e => rw [hst] at hok; simp at hok
  | ok p =>
    obtain ⟨cs, es⟩ := p
    rw [hst] at hok
    simp only [] at hok
    cases htype : m.type with
    | CHANNEL_PINNED_MESSAGE =>
      rw [htype] at hok
      cases href : m.message_reference with
      | none => simp [href] at hok
      | some r =>
        simp [href] at hok
        have hx := audit_close_count prevM _ out (by rw [← hok]) (by rfl) (by rw [← hok])
        exact ⟨hx.1, hx.2, fun _ => by rw [← hok]⟩
    | THREAD_CREATED =>
      rw [htype] at hok
      simp at hok
      have hx := audit_close_count prevM _ out (by rw [← hok]) (by rfl) (by rw [← hok])
      exact ⟨hx.1, hx.2, fun _ => by rw [← hok]⟩
    | RECIPIENT_REMOVE =>
      rw [htype] at hok
      cases hmid : m.mention_ids with
      | nil => simp [hmid] at hok
      | cons mid mids =>
        cases hmem : ctx.memberOf mid with
        | none => simp [hmid, hmem] at hok
        | some mem =>
          simp [hmid, hmem] at hok
          have hx := audit_close_count prevM _ out (by rw [← hok]) (by rfl) (by rw [← hok])
          exact ⟨hx.1, hx.2, fun _ => by rw [← hok]⟩
    | RECIPIENT_ADD =>
      rw [htype] at hok
      cases hmid : m.mention_ids with
      | nil => simp [hmid] at hok
      | cons mid mids =>
        cases hmem : ctx.memberOf mid with
        | none => simp [hmid, hmem] at hok
        | some mem =>
          simp [hmid, hmem] at hok
          have hx := audit_close_count prevM _ out (by rw [← hok]) (by rfl) (by rw [← hok])
          exact ⟨hx.1, hx.2, fun _ => by rw [← hok]⟩
    | DEFAULT =>
      rw [htype] at hok
      simp only [] at hok
      obtain ⟨st2, hbr⟩ := construct_normal_fetches ctx m prevM meta dict cs es out hok
      obtain ⟨out', hok', _, _, hstarted, hboundary, _, hcount⟩ :=
        construct_normal_out ctx m prevM meta dict cs es st2 out.fetches hbr
      have heq : out' = out := by
        rw [hok] at hok'
        exact ((Except.ok.injEq _ _).mp hok').symm
      rw [heq] at hstarted hboundary hcount
      refine ⟨?_, ?_, ?_⟩
      · rw [hcount, hboundary]
      · intro hp
        rw [hcount, hp]
        simp
      · intro ha
        simp [is_audit_type] at ha
    | REPLY =>
      rw [htype] at hok
      simp only [] at hok
      obtain ⟨st2, hbr⟩ := construct_normal_fetches ctx m prevM meta dict cs es out hok
      obtain ⟨out', hok', _, _, hstarted, hboundary, _, hcount⟩ :=
        construct_normal_out ctx m prevM meta dict cs es st2 out.fetches hbr
      have heq : out' = out := by
        rw [hok] at hok'
        exact ((Except.ok.injEq _ _).mp hok').symm
      rw [heq] at hstarted hboundary hcount
      refine ⟨?_, ?_, ?_⟩
      · rw [hcount, hboundary]
      · intro hp
        rw [hcount, hp]
        simp
      · intro ha
        simp [is_audit_type] at ha

/-- Sample pin message for the C2 and C6 instances. -/
def msgPin : Message :=
  { msgW with
    type := MessageType.CHANNEL_PINNED_MESSAGE
    message_reference := some { message_id := 50, channel_id := 1 } }

/-- Construction output of the pin instance with a previous message. -/
def outPin : BuildOut := getOk (construct_message ctxW msgPin (some prev1) [] [])

/-- Witness for C6 at the pin instance: with a previous message and a
forced boundary, exactly one block-closing fragment is emitted. -/
theorem c6_block_close_witness :
    countEnd outPin.frags = (if (some prev1).isSome && outPin.boundary then 1 else 0) :=
  (c6_block_close ctxW msgPin (some prev1) [] [] outPin (by rfl)).1

/-! ## Claim C2 -/

/-- C2 (amended): after the assembler processes a whole sequence (without
the thread-anchor substitution), the per-author aggregate's message-count
for author `a` equals the number of sequence entries authored by `a` that
took the normal build path; audit-type entries (pin notice, thread
created, member added/removed) are not counted and create no entry by
themselves. -/
theorem c2_amended_aggregate (ctx : Ctx) (msgs : List Message) (h : List Fragment)
    (meta : Meta) (a : Nat)
    (hns : thread_substitution msgs = false)
    (hok : gather_messages ctx msgs = Except.ok (h, meta)) :
    metaCount meta a = (msgs.filter (counted a)).length
    ∧ (0 < (msgs.filter (counted a)).length → (metaFind meta a).isSome = true) := by
  have h1 := gather_meta_count ctx msgs h meta a hns hok
  exact ⟨h1, fun hpos => metaFind_isSome_of_count_pos meta a (by rw [h1]; exact hpos)⟩

/-- C2 (counterexample): a transcript consisting of one pin-notice message
leaves the aggregate without any entry for its author, although the
author authored one entry of the sequence; the count is not maintained
"regardless of type tags". -/
theorem c2_aggregate_counterexample :
    (gather_messages ctxW [msgPin]).toOption.map (fun p => metaFind p.2 msgPin.author.id)
      = some none
    ∧ (List.filter (fun mm => decide (mm.author.id = msgPin.author.id)) [msgPin]).length
        = 1 := by
  constructor
  · rfl
  · rfl

/-- Aggregate produced by the one-normal-message transcript. -/
def c2pair : List Fragment × Meta := (gather_messages ctxW [msgW]).toOption.getD ([], [])

/-- Witness for the amended C2 at the one-normal-message transcript. -/
theorem c2_amended_aggregate_witness :
    metaCount c2pair.2 5 = ([msgW].filter (counted 5)).length :=
  (c2_amended_aggregate ctxW [msgW] c2pair.1 c2pair.2 5 (by rfl) (by rfl)).1

theorem pipeline_preserve (ctx : Ctx) (dict : List Message) (m : Message) (es : String)
    (st2 : MutMessage) (fetches : List Nat)
    (hbr : build_reference ctx dict m.created_at.tzoffset (build_content m.toMut es).1
        = Except.ok (st2, fetches)) :
    (build_interaction ctx st2).id = m.id
    ∧ (build_interaction ctx st2).author = m.author
    ∧ (build_interaction ctx st2).created_at = m.created_at
    ∧ (build_interaction ctx st2).edited_timestamp = m.edited_timestamp
    ∧ (build_interaction ctx st2).type = m.type
    ∧ (build_interaction ctx st2).webhook_id = m.webhook_id
    ∧ (build_interaction ctx st2).mention_ids = m.mention_ids
    ∧ (build_interaction ctx st2).embeds = m.embeds
    ∧ (build_interaction ctx st2).attachments = m.attachments
    ∧ (build_interaction ctx st2).components = m.components
    ∧ (build_interaction ctx st2).reactions = m.reactions
    ∧ (build_interaction ctx st2).channel_id = m.channel_id
    ∧ (build_interaction ctx st2).channel_is_thread = m.channel_is_thread := by
  obtain ⟨bi1, bi2, bi3, bi4, bi5, bi6, bi7, bi8, bi9, bi10, bi11, bi12, bi13, bi14, bi15⟩ :=
    build_interaction_preserve ctx st2
  obtain ⟨br1, br2, br3, br4, br5, br6, br7, br8, br9, br10, br11, br12, br13, br14, br15⟩ :=
    build_reference_preserve ctx dict m.created_at.tzoffset _ st2 fetches hbr
  obtain ⟨bc1, bc2, bc3, bc4, bc5, bc6, bc7, bc8, bc9, bc10, bc11, bc12, bc13, bc14, bc15⟩ :=
    build_content_preserve m.toMut es
  refine ⟨?_, ?_, ?_, ?_, ?_, ?_, ?_, ?_, ?_, ?_, ?_, ?_, ?_⟩
  · rw [bi7, br6, bc7]; simp [Message.toMut]
  · rw [bi4, br2, bc4]; simp [Message.toMut]
  · rw [bi5, br4, bc5]; simp [Message.toMut]
  · rw [bi9, br8, bc9]; simp [Message.toMut]
  · rw [bi8, br7, bc8]; simp [Message.toMut]
  · rw [bi6, br3, bc6]; simp [Message.toMut]
  · rw [bi10, br9, bc10]; simp [Message.toMut]
  · rw [bi11, br10, bc11]; simp [Message.toMut]
  · rw [bi12, br11, bc12]; simp [Message.toMut]
  · rw [bi13, br12, bc13]; simp [Message.toMut]
  · rw [bi14, br13, bc14]; simp [Message.toMut]
  · rw [bi3, br14, bc3]; simp [Message.toMut]
  · rw [bi15, br15, bc15]; simp [Message.toMut]

/-! ## Claim C8 -/

/-- C8 (amended): construction overwrites only the message object's
content, reply-reference and interaction attributes in place, replacing
them with rendered markup or empty strings; every other field of the
message object is left unchanged by construction. -/
theorem c8_amended_frame (ctx : Ctx) (m : Message) (prevM : Option MutMessage)
    (meta : Meta) (dict : List Message) (out : BuildOut)
    (hok : construct_message ctx m prevM meta dict = Except.ok out) :
    out.msg.id = m.id ∧ out.msg.author = m.author
    ∧ out.msg.created_at = m.created_at
    ∧ out.msg.edited_timestamp = m.edited_timestamp ∧ out.msg.type = m.type
    ∧ out.msg.webhook_id = m.webhook_id ∧ out.msg.mention_ids = m.mention_ids
    ∧ out.msg.embeds = m.embeds ∧ out.msg.attachments = m.attachments
    ∧ out.msg.components = m.components ∧ out.msg.reactions = m.reactions
    ∧ out.msg.channel_id = m.channel_id
    ∧ out.msg.channel_is_thread = m.channel_is_thread := by
  unfold construct_message at hok
  cases hst : set_time ctx m.created_at.tzoffset m.created_at m.edited_timestamp with
  | error e => rw [hst] at hok; simp at hok
  | ok p =>
    obtain ⟨cs, es⟩ := p
    rw [hst] at hok
    simp only [] at hok
    cases htype : m.type with
    | CHANNEL_PINNED_MESSAGE =>
      rw [htype] at hok
      cases href : m.message_reference with
      | none => simp [href] at hok
      | some r => simp [href] at hok; simp [← hok, Message.toMut, htype]
    | THREAD_CREATED =>
      rw [htype] at hok
      simp at hok; simp [← hok, Message.toMut, htype]
    | RECIPIENT_REMOVE =>
      rw [htype] at hok
      cases hmid : m.mention_ids with
      | nil => simp [hmid] at hok
      | cons mid mids =>
        cases hmem : ctx.memberOf mid with
        | none => simp [hmid, hmem] at hok
        | some mem => simp [hmid, hmem] at hok; simp [← hok, Message.toMut, htype, hmid]
    | RECIPIENT_ADD =>
      rw [htype] at hok
      cases hmid : m.mention_ids with
      | nil => simp [hmid] at hok
      | cons mid mids =>
        cases hmem : ctx.memberOf mid with
        | none => simp [hmid, hmem] at hok
        | some mem => simp [hmid, hmem] at hok; simp [← hok, Message.toMut, htype, hmid]
    | DEFAULT =>
      rw [htype] at hok
      simp only [] at hok
      obtain ⟨st2, hbr⟩ := construct_normal_fetches ctx m prevM meta dict cs es out hok
      obtain ⟨out', hok', hmsg, _, _, _, _, _⟩ :=
        construct_normal_out ctx m prevM meta dict cs es st2 out.fetches hbr
      have heq : out' = out := by
        rw [hok] at hok'
        exact ((Except.ok.injEq _ _).mp hok').symm
      rw [heq] at hmsg
      rw [hmsg, ← htype]
      exact pipeline_preserve ctx dict m es st2 out.fetches hbr
    | REPLY =>
      rw [htype] at hok
      simp only [] at hok
      obtain ⟨st2, hbr⟩ := construct_normal_fetches ctx m prevM meta dict cs es out hok
      obtain ⟨out', hok', hmsg, _, _, _, _, _⟩ :=
        construct_normal_out ctx m prevM meta dict cs es st2 out.fetches hbr
      have heq : out' = out := by
        rw [hok] at hok'
        exact ((Except.ok.injEq _ _).mp hok').symm
      rw [heq] at hmsg
      rw [hmsg, ← htype]
      exact pipeline_preserve ctx dict m es st2 out.fetches hbr

/-- C8 (counterexample): constructing a plain "hi" message overwrites the
message object's content attribute in place with rendered markup, so the
input record is not left unmutated. -/
theorem c8_frame_counterexample :
    (construct_message ctxW msgW none [] []).toOption.map
      (fun o => decide (o.msg.content = msgW.content)) = some false := by
  rfl

/-- Construction output of the plain message instance. -/
def out8 : BuildOut := getOk (construct_message ctxW msgW none [] [])

/-- Witness for the amended C8 at the plain message instance. -/
theorem c8_amended_frame_witness :
    out8.msg.id = msgW.id ∧ out8.msg.author = msgW.author
    ∧ out8.msg.created_at = msgW.created_at
    ∧ out8.msg.edited_timestamp = msgW.edited_timestamp ∧ out8.msg.type = msgW.type
    ∧ out8.msg.webhook_id = msgW.webhook_id ∧ out8.msg.mention_ids = msgW.mention_ids
    ∧ out8.msg.embeds = msgW.embeds ∧ out8.msg.attachments = msgW.attachments
    ∧ out8.msg.components = msgW.components ∧ out8.msg.reactions = msgW.reactions
    ∧ out8.msg.channel_id = msgW.channel_id
    ∧ out8.msg.channel_is_thread = msgW.channel_is_thread :=
  c8_amended_frame ctxW msgW none [] [] out8 (by rfl)

/-! ## Claim C5 -/

/-- C5 (code bug): `to_local_time_str` guards UTC localization on the
tzinfo of the constructed message's own creation timestamp instead of the
tzinfo of the timestamp being converted (message.py line 441).  With an
aware creation timestamp, a naive edit or reference timestamp is
converted without being localized to UTC — it is read in the system
timezone (here UTC+1), yielding a different instant than the specified
normalization — and with a naive creation timestamp an aware timestamp
makes pytz raise instead of being converted directly. -/
theorem c5_localization_code_bug :
    to_local_time_str (some 0) 0 3600 { seconds := 0, tzoffset := none }
      = Except.ok { seconds := -3600, tzoffset := some 0 }
    ∧ to_local_time_str_spec 0 3600 { seconds := 0, tzoffset := none }
      = { seconds := 0, tzoffset := some 0 }
    ∧ to_local_time_str none 0 0 { seconds := 5, tzoffset := some 0 }
      = Except.error pytzNotNaiveMsg := by
  refine ⟨rfl, rfl, rfl⟩

/-! ## Claim C10 support -/

theorem countRaw_append (a b : List Fragment) :
    countRaw (a ++ b) = countRaw a + countRaw b := by
  simp [countRaw, List.filter_append]

theorem countRaw_closePrev_append (prevM : Option MutMessage) (f : Fragment)
    (hf : isRaw f = false) :
    countRaw (closePrev prevM ++ [f]) = 0 := by
  have hend : isRaw Fragment.end_message = false := rfl
  cases prevM with
  | none =>
    simp only [closePrev, List.nil_append, countRaw, List.filter_cons, hf]
    simp
  | some p =>
    simp only [closePrev, List.cons_append, List.nil_append, countRaw, List.filter_cons,
      hf, hend]
    simp

theorem construct_no_raw (ctx : Ctx) (m : Message) (prevM : Option MutMessage)
    (meta : Meta) (dict : List Message) (out : BuildOut)
    (hok : construct_message ctx m prevM meta dict = Except.ok out) :
    countRaw out.frags = 0 := by
  unfold construct_message at hok
  cases hst : set_time ctx m.created_at.tzoffset m.created_at m.edited_timestamp with
  | error e => rw [hst] at hok; simp at hok
  | ok p =>
    obtain ⟨cs, es⟩ := p
    rw [hst] at hok
    simp only [] at hok
    cases htype : m.type with
    | CHANNEL_PINNED_MESSAGE =>
      rw [htype] at hok
      cases href : m.message_reference with
      | none => simp [href] at hok
      | some r =>
        simp [href] at hok
        rw [← hok]
        exact countRaw_closePrev_append prevM _ (by rfl)
    | THREAD_CREATED =>
      rw [htype] at hok
      simp at hok
      rw [← hok]
      exact countRaw_closePrev_append prevM _ (by rfl)
    | RECIPIENT_REMOVE =>
      rw [htype] at hok
      cases hmid : m.mention_ids with
      | nil => simp [hmid] at hok
      | cons mid mids =>
        cases hmem : ctx.memberOf mid with
        | none => simp [hmid, hmem] at hok
        | some mem =>
          simp [hmid, hmem] at hok
          rw [← hok]
          exact countRaw_closePrev_append prevM _ (by rfl)
    | RECIPIENT_ADD =>
      rw [htype] at hok
      cases hmid : m.mention_ids with
      | nil => simp [hmid] at hok
      | cons mid mids =>
        cases hmem : ctx.memberOf mid with
        | none => simp [hmid, hmem] at hok
        | some mem =>
          simp [hmid, hmem] at hok
          rw [← hok]
          exact countRaw_closePrev_append prevM _ (by rfl)
    | DEFAULT =>
      rw [htype] at hok
      simp only [construct_normal] at hok
      cases hbr : build_reference ctx dict m.created_at.tzoffset
          (build_content m.toMut es).1 with
      | error e => rw [hbr] at hok; simp at hok
      | ok q =>
        obtain ⟨st2, fetches⟩ := q
        rw [hbr] at hok
        simp only [] at hok
        cases hdc : divider_check prevM (build_interaction ctx st2) with
        | true =>
          simp only [generate_message_divider, hdc, if_true, Except.ok.injEq] at hok
          rw [← hok]
          exact countRaw_closePrev_append prevM _ (by rfl)
        | false =>
          simp only [generate_message_divider, hdc, if_false, Bool.false_eq_true,
            Except.ok.injEq] at hok
          rw [← hok]
          simp [countRaw, List.filter_cons, isRaw]
    | REPLY =>
      rw [htype] at hok
      simp only [construct_normal] at hok
      cases hbr : build_reference ctx dict m.created_at.tzoffset
          (build_content m.toMut es).1 with
      | error e => rw [hbr] at hok; simp at hok
      | ok q =>
        obtain ⟨st2, fetches⟩ := q
        rw [hbr] at hok
        simp only [] at hok
        cases hdc : divider_check prevM (build_interaction ctx st2) with
        | true =>
          simp only [generate_message_divider, hdc, if_true, Except.ok.injEq] at hok
          rw [← hok]
          exact countRaw_closePrev_append prevM _ (by rfl)
        | false =>
          simp only [generate_message_divider, hdc, if_false, Bool.false_eq_true,
            Except.ok.injEq] at hok
          rw [← hok]
          simp [countRaw, List.filter_cons, isRaw]

theorem gather_loop_raw (ctx : Ctx) (dict : List Message) :
    ∀ (msgs : List Message) (prevM : Option MutMessage) (html : List Fragment)
      (meta : Meta) (h : List Fragment) (mfin : Meta),
      gather_loop ctx dict msgs prevM html meta = Except.ok (h, mfin) →
      countRaw h = countRaw html := by
  intro msgs
  induction msgs with
  | nil =>
    intro prevM html meta h mfin hok
    unfold gather_loop at hok
    simp at hok
    rw [← hok.1]
  | cons m rest ih =>
    intro prevM html meta h mfin hok
    unfold gather_loop at hok
    cases hc : construct_message ctx m prevM meta dict with
    | error e => rw [hc] at hok; simp at hok
    | ok out =>
      rw [hc] at hok
      simp only [] at hok
      have hrec := ih (some out.msg) (html ++ out.frags) out.meta h mfin hok
      rw [hrec, countRaw_append, construct_no_raw ctx m prevM meta dict out hc]
      rfl

theorem run_transcript_shape (ctx : Ctx) (dict msgs2 : List Message) (h : List Fragment)
    (meta : Meta)
    (hrun : run_transcript ctx dict msgs2 = Except.ok (h, meta)) :
    ∃ h0, gather_loop ctx dict msgs2 none [] [] = Except.ok (h0, meta)
      ∧ h = h0 ++ [Fragment.raw "</div>"] := by
  unfold run_transcript at hrun
  cases hl : gather_loop ctx dict msgs2 none [] [] with
  | error e => rw [hl] at hrun; simp at hrun
  | ok q =>
    obtain ⟨h0, meta0⟩ := q
    rw [hl] at hrun
    simp at hrun
    exact ⟨h0, by rw [hrun.2], by rw [← hrun.1]⟩

theorem gather_ok_shape (ctx : Ctx) (msgs : List Message) (h : List Fragment)
    (meta : Meta)
    (hok : gather_messages ctx msgs = Except.ok (h, meta)) :
    ∃ dict msgs2 h0, gather_loop ctx dict msgs2 none [] [] = Except.ok (h0, meta)
      ∧ h = h0 ++ [Fragment.raw "</div>"] := by
  unfold gather_messages at hok
  cases msgs with
  | nil => simp at hok
  | cons m0 rest =>
    simp only [] at hok
    cases href : m0.message_reference with
    | none =>
      rw [href] at hok
      obtain ⟨h0, hl, he⟩ := run_transcript_shape ctx _ _ h meta hok
      exact ⟨m0 :: rest, m0 :: rest, h0, hl, he⟩
    | some r =>
      rw [href] at hok
      simp only [] at hok
      cases hth : m0.channel_is_thread with
      | false =>
        rw [hth] at hok
        simp only [Bool.false_eq_true, if_false] at hok
        obtain ⟨h0, hl, he⟩ := run_transcript_shape ctx _ _ h meta hok
        exact ⟨m0 :: rest, m0 :: rest, h0, hl, he⟩
      | true =>
        rw [hth] at hok
        simp only [if_true] at hok
        cases hf : ctx.fetchMessage r.channel_id r.message_id with
        | found parent =>
          rw [hf] at hok
          simp only [] at hok
          obtain ⟨h0, hl, he⟩ := run_transcript_shape ctx _ _ h meta hok
          exact ⟨m0 :: rest, { parent with message_reference := none } :: rest, h0, hl, he⟩
        | notFound => rw [hf] at hok; simp at hok
        | otherError => rw [hf] at hok; simp at hok

/-! ## Claim C10 -/

/-- C10: the assembler inspects the first element before the loop, so an
empty sequence raises an index error instead of yielding an empty
transcript; every successful run ends in exactly one trailing
block-closing fragment appended after the loop. -/
theorem c10_assembler_shape (ctx : Ctx) (msgs : List Message) (h : List Fragment)
    (meta : Meta)
    (hok : gather_messages ctx msgs = Except.ok (h, meta)) :
    gather_messages ctx [] = Except.error "IndexError: list index out of range"
    ∧ h.getLast? = some (Fragment.raw "</div>")
    ∧ countRaw h = 1 := by
  obtain ⟨dict, msgs2, h0, hl, he⟩ := gather_ok_shape ctx msgs h meta hok
  refine ⟨rfl, ?_, ?_⟩
  · rw [he]
    exact List.getLast?_concat h0
  · rw [he, countRaw_append, gather_loop_raw ctx dict msgs2 none [] [] h0 meta hl]
    rfl

/-- Witness for C10 at the one-normal-message transcript. -/
theorem c10_assembler_shape_witness :
    gather_messages ctxW [] = Except.error "IndexError: list index out of range"
    ∧ c2pair.1.getLast? = some (Fragment.raw "</div>")
    ∧ countRaw c2pair.1 = 1 :=
  c10_assembler_shape ctxW [msgW] c2pair.1 c2pair.2 (by rfl)

/-! ## Claim C4 -/

/-- C4: when the first message of the sequence belongs to a thread-type
channel and carries a reply-reference, the assembler replaces it with the
parent message fetched from the reference's source channel, clears the
substituted message's reference, and runs the ordinary loop (strictly in
input order, threading the previous-message pointer) on the substituted
sequence; the substituted first message renders with an empty reference
substitution, so no reply banner appears. -/
theorem c4_thread_anchor (ctx : Ctx) (m0 parent : Message) (rest : List Message)
    (r : MessageReference)
    (hth : m0.channel_is_thread = true)
    (href : m0.message_reference = some r)
    (hf : ctx.fetchMessage r.channel_id r.message_id = FetchRes.found parent) :
    gather_messages ctx (m0 :: rest)
      = run_transcript ctx (m0 :: rest) ({ parent with message_reference := none } :: rest)
    ∧ (parent.type = MessageType.DEFAULT → parent.interaction = none →
        tz_ok { parent with message_reference := none } = true →
        (construct_message ctx { parent with message_reference := none } none []
            (m0 :: rest)).map
          (fun o => (firstStartRef o.frags, o.msg.message_reference))
          = Except.ok (some "", RefSlot.str "")) := by
  constructor
  · simp [gather_messages, href, hth, hf]
  · intro hpd hpi hptz
    obtain ⟨p, hst⟩ := set_time_ok_of_tz_ok ctx { parent with message_reference := none } hptz
    obtain ⟨cs, es⟩ := p
    have hred : construct_message ctx { parent with message_reference := none } none []
          (m0 :: rest)
        = construct_normal ctx { parent with message_reference := none } none []
          (m0 :: rest) cs es := by
      simp [construct_message, hst, hpd]
    have hrs0 : (build_content (Message.toMut { parent with message_reference := none })
        es).1.message_reference = RefSlot.noneV := by
      rw [(build_content_preserve _ es).1]
      simp [Message.toMut]
    have hbr : build_reference ctx (m0 :: rest)
          ({ parent with message_reference := none } : Message).created_at.tzoffset
          (build_content (Message.toMut { parent with message_reference := none }) es).1
        = Except.ok
          ({ (build_content (Message.toMut { parent with message_reference := none }) es).1
              with message_reference := RefSlot.str "" }, []) := by
      simp [build_reference, hrs0]
    have hinter : (build_content (Message.toMut { parent with message_reference := none })
        es).1.interaction = IntSlot.noneV := by
      rw [(build_content_preserve _ es).2.1]
      simp [Message.toMut, hpi]
    rw [hred]
    simp only [construct_normal]
    rw [hbr]
    simp only []
    simp [build_interaction, hinter, generate_message_divider, divider_check, closePrev,
      firstStartRef, pyOrStr, RefSlot.asStr, IntSlot.asStr, Except.map]

/-- Thread-channel first message with a reply-reference, for C4. -/
def msg4 : Message :=
  { msgW with
    channel_is_thread := true
    message_reference := some { message_id := 50, channel_id := 2 } }

/-- Parent message that spawned the thread, for C4. -/
def parent4 : Message := { msgW with id := 50, content := "parent" }

/-- Context whose remote fetch returns the parent message, for C4. -/
def ctx4 : Ctx :=
  { guild_id := 1, memberOf := fun _ => none,
    fetchMessage := fun c i =>
      if c = 2 && i = 50 then FetchRes.found parent4 else FetchRes.otherError,
    displayOff := 0, sysOff := 0, militaryTime := true }

/-- Witness for C4 at the concrete thread transcript. -/
theorem c4_thread_anchor_witness :
    gather_messages ctx4 [msg4]
      = run_transcript ctx4 [msg4] [{ parent4 with message_reference := none }] :=
  (c4_thread_anchor ctx4 msg4 parent4 [] { message_id := 50, channel_id := 2 }
    (by rfl) (by rfl) (by rfl)).1

end Chat
